import Mathlib

/-!
Shallow embedding of the ECG2Signal clinical analysis core
(arrhythmia detection, QT analysis, clinical interpretation) and
proofs about its behaviour.

Conventions of the embedding:
* Machine floats are modelled as exact rationals (`ℚ`); values produced
  by `sqrt` / `log` (standard deviations, Bazett/Fridericia corrections,
  Shannon entropy) live in `ℝ`.
* Python dicts (lead name → array) are modelled as insertion-ordered
  association lists `List (String × _)`.
* NumPy reductions on empty arrays (`np.mean([])`, `np.max([])`) yield
  NaN/errors in Python; every use in the source is guarded by explicit
  length checks, and the embedding returns `0` in those unreachable
  cases.
* External SciPy routines whose internals are not part of this
  repository (`welch`, the band-pass R-peak detector) are passed in as
  explicit function parameters; all theorems about `detect` quantify
  over them.
-/

namespace ECG2Signal

/-- Sum of a list of rationals (`np.sum`). -/
def qsum (l : List ℚ) : ℚ := l.sum

/-- `np.mean` over rationals.  `np.mean([])` is NaN in Python and every
call site is guarded by a length check; the embedding returns 0 there. -/
def qmean (l : List ℚ) : ℚ := l.sum / l.length

/-- Population variance (`np.var`, ddof = 0). -/
def qvarPop (l : List ℚ) : ℚ := qmean (l.map (fun x => (x - qmean l) ^ 2))

/-- `np.std` (population standard deviation); irrational in general,
hence valued in `ℝ`. -/
noncomputable def stdR (l : List ℚ) : ℝ := Real.sqrt (qvarPop l : ℝ)

/-- `scipy.stats.variation`: coefficient of variation `std / mean`. -/
noncomputable def variationR (l : List ℚ) : ℝ := stdR l / (qmean l : ℝ)

/-- `np.max` of a rational list (0 on the empty list, which is an error
in NumPy and unreachable in the guarded call sites). -/
def qmax : List ℚ → ℚ
  | [] => 0
  | x :: xs => xs.foldl max x

/-- `np.min` of a rational list (0 on the empty list, as for `qmax`). -/
def qmin : List ℚ → ℚ
  | [] => 0
  | x :: xs => xs.foldl min x

/-- `np.median`: sort ascending, take the middle element (odd length) or
the mean of the two middle elements (even length). -/
def qmedian (l : List ℚ) : ℚ :=
  let s := l.mergeSort (fun a b => decide (a ≤ b))
  let n := l.length
  if n = 0 then 0
  else if n % 2 = 1 then (s.get? (n / 2)).getD 0
  else (((s.get? (n / 2 - 1)).getD 0) + ((s.get? (n / 2)).getD 0)) / 2

/-- `np.argmax`: index of the first occurrence of the maximum (0 on the
empty list, as in the guarded call sites). -/
def argmaxQ (l : List ℚ) : ℕ :=
  (l.foldl
    (fun (acc : ℕ × ℕ × Option ℚ) x =>
      match acc with
      | (idx, _b, none) => (idx + 1, idx, some x)
      | (idx, best, some bv) =>
          if bv < x then (idx + 1, idx, some x) else (idx + 1, best, some bv))
    (0, 0, none)).2.1

/-- `np.diff` on a peak-index array, valued in `ℚ` (differences of the
sample indices). -/
def diffQ (p : List ℕ) : List ℚ :=
  List.zipWith (fun (a b : ℕ) => (b : ℚ) - (a : ℚ)) p p.tail

/-- Python slice `l[start:stop]` (clamping, never failing). -/
def slice (l : List α) (start stop : ℕ) : List α :=
  (l.drop start).take (stop - start)

/-- Python `int()`: truncation toward zero. -/
def pyInt (q : ℚ) : ℤ := if q < 0 then ⌈q⌉ else ⌊q⌋

/-- Python `int()` in sample-index positions, where the argument is
nonnegative (`ℕ`-valued for use as a list index). -/
def qfloor (q : ℚ) : ℕ := (⌊q⌋).toNat

/-! ## Arrhythmia detector: data model (`clinical/arrhythmia.py`) -/

/-- `ArrhythmiaType` enumeration. -/
inductive ArrhythmiaType where
  | normal
  | afib
  | aflutter
  | vt
  | vfib
  | pvc
  | pac
  | bradycardia
  | tachycardia
  | firstDegreeBlock
  | secondDegreeBlock
  | thirdDegreeBlock
  | sinusArrhythmia
  deriving DecidableEq, Repr

/-- Iteration order of the `ArrhythmiaType` enum (used by the burden
computation, which loops `for arrhythmia_type in ArrhythmiaType`). -/
def ArrhythmiaType.all : List ArrhythmiaType :=
  [.normal, .afib, .aflutter, .vt, .vfib, .pvc, .pac, .bradycardia,
   .tachycardia, .firstDegreeBlock, .secondDegreeBlock, .thirdDegreeBlock,
   .sinusArrhythmia]

/-- `ArrhythmiaDetection` record.  `confidence` is `ℝ` because the AFib
confidence is `min(0.95, cv)` with `cv` a standard-deviation ratio. -/
structure ArrhythmiaDetection where
  type : ArrhythmiaType
  confidence : ℝ
  onset_sample : Option ℕ := none
  duration_samples : Option ℕ := none
  severity : String := "mild"
  description : String := ""
  clinical_significance : String := ""

/-- `ArrhythmiaReport` record. -/
structure ArrhythmiaReport where
  detections : List ArrhythmiaDetection
  primary_rhythm : ArrhythmiaType
  heart_rate_mean : ℚ
  heart_rate_std : ℝ
  rr_irregularity : ℝ
  ectopic_beats : ℕ
  burden_percent : List (ArrhythmiaType × ℚ)
  critical_findings : List String
  recommendations : List String

/-- Detector state after `ArrhythmiaDetector.__init__`: the sampling
rate and the two rate-derived tuning constants.  The constructor
performs no validation whatsoever (`arrhythmia.py` lines 82-85). -/
structure ArrhythmiaDetectorConfig where
  sample_rate : ℚ
  min_rr_interval : ℤ
  max_rr_interval : ℤ
  deriving DecidableEq, Repr

/-- `ArrhythmiaDetector.__init__`: stores the rate and derives
`min_rr_interval = int(0.3*rate)`, `max_rr_interval = int(2.0*rate)`.
There is no fail-fast check on nonpositive rates. -/
def ArrhythmiaDetector.init (sample_rate : ℚ) : ArrhythmiaDetectorConfig :=
  { sample_rate := sample_rate
    min_rr_interval := pyInt (0.3 * sample_rate)
    max_rr_interval := pyInt (2.0 * sample_rate) }

/-! ## Arrhythmia detector: detection passes

Interpolated numeric values inside description strings (Python
f-strings) are elided or rendered with `toString`; no claim depends on
their exact text.  Real-valued branch conditions (standard-deviation
ratios, entropies) use classical decidability. -/

open scoped Classical

/-- `_detect_rate_abnormalities`: bradycardia below 60 BPM, tachycardia
above 100 BPM, with severity escalation at 40/50 resp. 120/150 BPM. -/
def detectRateAbnormalities (sample_rate : ℚ) (rr : List ℚ) :
    List ArrhythmiaDetection :=
  if rr.length = 0 then []
  else
    let mean_rr := qmean rr
    let heart_rate := 60 * sample_rate / mean_rr
    if heart_rate < 60 then
      let severity :=
        if heart_rate < 40 then "severe"
        else if heart_rate < 50 then "moderate" else "mild"
      [{ type := .bradycardia, confidence := 0.95, severity := severity,
         description := "Heart rate " ++ toString heart_rate ++ " BPM (normal: 60-100)",
         clinical_significance := "May indicate sinus node dysfunction or AV block" }]
    else if 100 < heart_rate then
      let severity :=
        if 150 < heart_rate then "severe"
        else if 120 < heart_rate then "moderate" else "mild"
      [{ type := .tachycardia, confidence := 0.95, severity := severity,
         description := "Heart rate " ++ toString heart_rate ++ " BPM (normal: 60-100)",
         clinical_significance := "May indicate sinus tachycardia, SVT, or VT" }]
    else []

/-- `_assess_p_wave_regularity`: the source returns the constant
placeholder `0.5` for every input. -/
def assessPWaveRegularity (_signal : List ℚ) (_r_peaks : List ℕ) : ℚ := 0.5

/-- `_detect_afib`: requires at least 10 RR intervals, coefficient of
variation above 0.3, and P-wave regularity below 0.3. -/
noncomputable def detectAfib (rr : List ℚ) (signal : List ℚ) (peaks : List ℕ) :
    List ArrhythmiaDetection :=
  if rr.length < 10 then []
  else
    let cv := variationR rr
    if 0.3 < cv then
      let p_wave_score := assessPWaveRegularity signal peaks
      if p_wave_score < 0.3 then
        [{ type := .afib, confidence := min 0.95 cv, severity := "moderate",
           description := "Irregularly irregular rhythm, absent P-waves",
           clinical_significance := "Risk of stroke, requires anticoagulation consideration" }]
      else []
    else []

/-- `_detect_aflutter`, parametrized by the output `(freqs, psd)` of the
external `scipy.signal.welch` call: flags flutter when the 4-6 Hz band
holds more than 20 % of total spectral power. -/
def detectAflutter (freqs psd : List ℚ) : List ArrhythmiaDetection :=
  let pairs := freqs.zip psd
  let flutter := pairs.filter (fun fp => decide (4 ≤ fp.1) && decide (fp.1 ≤ 6))
  if flutter.length = 0 then []
  else
    let flutter_power := qsum (flutter.map Prod.snd)
    let total_power := qsum psd
    if 0.2 < flutter_power / total_power then
      [{ type := .aflutter, confidence := 0.75, severity := "moderate",
         description := "Regular flutter waves detected at 300 BPM",
         clinical_significance := "Requires rate control and anticoagulation" }]
    else []

/-- `_estimate_single_qrs_width`: 100 ms search window around the peak,
threshold at 30 % of the local maximum absolute amplitude, width = span
of above-threshold samples; default 80 ms when nothing clears the
threshold. -/
def estimateSingleQrsWidth (sample_rate : ℚ) (signal : List ℚ) (peak_idx : ℕ) : ℚ :=
  let search_window := qfloor (0.1 * sample_rate)
  let start_idx := peak_idx - search_window
  let end_idx := min signal.length (peak_idx + search_window)
  let segment := slice signal start_idx end_idx
  let threshold := 0.3 * qmax (segment.map (fun x => |x|))
  let idxs := (segment.enum.filter (fun p => decide (threshold < |p.2|))).map Prod.fst
  if idxs.length = 0 then 0.08 * sample_rate
  else ((idxs.getLastD 0 : ℕ) : ℚ) - ((idxs.headD 0 : ℕ) : ℚ)

/-- `_estimate_qrs_widths`: per-peak QRS width estimates. -/
def estimateQrsWidths (sample_rate : ℚ) (signal : List ℚ) (peaks : List ℕ) : List ℚ :=
  peaks.map (estimateSingleQrsWidth sample_rate signal)

/-- Rational part of `_calculate_signal_entropy`: the `np.histogram`
densities (`bins` equal-width bins over `[min, max]`, `density=True`,
last bin closed; an all-equal signal uses the NumPy fallback range
`(v - 0.5, v + 0.5)`), filtered to the nonzero entries. -/
def histNonzeroDensities (signal : List ℚ) (bins : ℕ) : List ℚ :=
  if signal.length = 0 then []
  else
    let mn := qmin signal
    let mx := qmax signal
    let low := if mn = mx then mn - 0.5 else mn
    let high := if mn = mx then mx + 0.5 else mx
    let width := (high - low) / bins
    let count : ℕ → ℕ := fun i =>
      if i + 1 < bins then
        (signal.filter (fun v =>
          decide (low + i * width ≤ v) && decide (v < low + (i + 1) * width))).length
      else
        (signal.filter (fun v =>
          decide (low + i * width ≤ v) && decide (v ≤ high))).length
    let densities := (List.range bins).map
      (fun i => (count i : ℚ) / (signal.length * width))
    densities.filter (fun d => decide (0 < d))

/-- `_calculate_signal_entropy`: Shannon entropy of the nonzero
histogram densities, normalized by `log2` of their count. -/
noncomputable def calculateSignalEntropy (signal : List ℚ) : ℝ :=
  let hist := histNonzeroDensities signal 50
  let entropy : ℝ := -(hist.map (fun (p : ℚ) => (p : ℝ) * Real.logb 2 (p : ℝ))).sum
  let max_entropy : ℝ := Real.logb 2 (hist.length : ℝ)
  if 0 < max_entropy then entropy / max_entropy else 0

/-- `_detect_ventricular_arrhythmias`: VT when rate > 100 BPM, RR CV
below 0.2 and mean QRS width above 120 ms; VFib when (peak count < 3 or
RR CV above 0.8) and normalized signal entropy above 0.8.  Requires at
least 3 RR intervals, otherwise returns no detections. -/
noncomputable def detectVentricularArrhythmias (sample_rate : ℚ)
    (signal : List ℚ) (peaks : List ℕ) (rr : List ℚ) :
    List ArrhythmiaDetection :=
  if rr.length < 3 then []
  else
    let mean_rr := qmean rr
    let vt_rate := 60 * sample_rate / mean_rr
    let vt_dets : List ArrhythmiaDetection :=
      if 100 < vt_rate ∧ variationR rr < 0.2 then
        let qrs_widths := estimateQrsWidths sample_rate signal peaks
        let mean_width := qmean qrs_widths
        if 0.12 * sample_rate < mean_width then
          [{ type := .vt, confidence := 0.85,
             severity := if 150 < vt_rate then "severe" else "moderate",
             description := "Wide complex tachycardia",
             clinical_significance := "Life-threatening, requires immediate intervention" }]
        else []
      else []
    let vfib_dets : List ArrhythmiaDetection :=
      if peaks.length < 3 ∨ 0.8 < variationR rr then
        if 0.8 < calculateSignalEntropy signal then
          [{ type := .vfib, confidence := 0.90, severity := "severe",
             description := "Chaotic ventricular activity, no organized rhythm",
             clinical_significance := "FATAL - requires immediate defibrillation" }]
        else []
      else []
    vt_dets ++ vfib_dets

/-- `_detect_ectopic_beats`: for each interior RR triplet, PVC when a
short RR is followed by a compensatory pause and a wide QRS, PAC when a
short RR is followed by a normal-length RR. -/
def detectEctopicBeats (sample_rate : ℚ) (signal : List ℚ) (peaks : List ℕ)
    (rr : List ℚ) : List ArrhythmiaDetection :=
  if rr.length < 3 then []
  else
    ((List.range (rr.length - 1)).drop 1).flatMap (fun i =>
      let rr_current := (rr.get? i).getD 0
      let rr_next := (rr.get? (i + 1)).getD 0
      let mean_rr := qmean rr
      if rr_current < 0.8 * mean_rr ∧ 1.2 * mean_rr < rr_next then
        let peak_idx := (peaks.get? (i + 1)).getD 0
        let qrs_width := estimateSingleQrsWidth sample_rate signal peak_idx
        if 0.12 * sample_rate < qrs_width then
          [{ type := .pvc, confidence := 0.80,
             onset_sample := some peak_idx,
             duration_samples := some (qfloor qrs_width),
             severity := "mild",
             description := "Premature ventricular beat",
             clinical_significance := "Usually benign if infrequent" }]
        else []
      else if rr_current < 0.8 * mean_rr ∧ rr_next < 1.1 * mean_rr then
        [{ type := .pac, confidence := 0.75,
           onset_sample := some ((peaks.get? (i + 1)).getD 0),
           severity := "mild",
           description := "Premature atrial beat",
           clinical_significance := "Usually benign" }]
      else [])

/-- `_detect_heart_blocks`: with more than 10 RR intervals, counts
consecutive ratios above 1.8 and flags a suspected second-degree block
when more than 2 occur. -/
def detectHeartBlocks (_signal : List ℚ) (_peaks : List ℕ) (rr : List ℚ) :
    List ArrhythmiaDetection :=
  if 10 < rr.length then
    let rr_ratio := List.zipWith (fun a b => b / a) rr rr.tail
    let doubled_intervals := (rr_ratio.filter (fun x => decide (1.8 < x))).length
    if 2 < doubled_intervals then
      [{ type := .secondDegreeBlock, confidence := 0.60, severity := "moderate",
         description := "Suspected second-degree AV block (" ++
           toString doubled_intervals ++ " dropped beats)",
         clinical_significance := "May progress to complete heart block" }]
    else []
  else []

/-! ## Arrhythmia detector: aggregation and `detect` -/

/-- Distinct detection types in first-occurrence order (models the
insertion order of the Python `type_counts` dict). -/
def firstOccurrenceTypes (dets : List ArrhythmiaDetection) : List ArrhythmiaType :=
  (dets.map (fun d => d.type)).foldl
    (fun acc t => if t ∈ acc then acc else acc ++ [t]) []

/-- Number of detections of a given type. -/
def typeCount (dets : List ArrhythmiaDetection) (t : ArrhythmiaType) : ℕ :=
  (dets.filter (fun d => decide (d.type = t))).length

/-- Python `max(items, key=count)`: first element attaining the maximal
count, in iteration order. -/
def mostCommonType (dets : List ArrhythmiaDetection) : ArrhythmiaType :=
  match firstOccurrenceTypes dets with
  | [] => .normal
  | t :: ts =>
      ts.foldl (fun best u =>
        if typeCount dets best < typeCount dets u then u else best) t

/-- Whether some detection of type `t` has confidence above 0.7. -/
def hasConfidentDetection (dets : List ArrhythmiaDetection)
    (t : ArrhythmiaType) : Prop :=
  ∃ d ∈ dets, d.type = t ∧ (0.7 : ℝ) < d.confidence

/-- `_determine_primary_rhythm`: life-threatening rhythms in fixed
priority order (confidence > 0.7), else the most common detected type,
else Normal. -/
noncomputable def determinePrimaryRhythm (dets : List ArrhythmiaDetection)
    (_rr : List ℚ) : ArrhythmiaType :=
  if dets.length = 0 then .normal
  else if hasConfidentDetection dets .vfib then .vfib
  else if hasConfidentDetection dets .vt then .vt
  else if hasConfidentDetection dets .afib then .afib
  else if hasConfidentDetection dets .aflutter then .aflutter
  else if hasConfidentDetection dets .thirdDegreeBlock then .thirdDegreeBlock
  else mostCommonType dets

/-- `_calculate_heart_rate_stats`: mean and population standard
deviation of the per-interval heart rates; `(0, 0)` when no RR
intervals exist. -/
noncomputable def calculateHeartRateStats (sample_rate : ℚ) (rr : List ℚ) :
    ℚ × ℝ :=
  if rr.length = 0 then (0, 0)
  else
    let heart_rates := rr.map (fun r => 60 * sample_rate / r)
    (qmean heart_rates, stdR heart_rates)

/-- Loop body of `_calculate_burden` over the `ArrhythmiaType` enum in
iteration order.  The Python division `total_duration / total_samples`
is between plain ints, so the first type that has detections raises
`ZeroDivisionError` when `total_samples` (the selected-lead length) is
zero; the `Except` result models that exception. -/
def burdenEntries (ts : List ArrhythmiaType) (dets : List ArrhythmiaDetection)
    (total_samples : ℕ) : Except String (List (ArrhythmiaType × ℚ)) :=
  match ts with
  | [] => .ok []
  | t :: rest =>
    let type_dets := dets.filter (fun d => decide (d.type = t))
    if type_dets.length = 0 then burdenEntries rest dets total_samples
    else if total_samples = 0 then .error "ZeroDivisionError: division by zero"
    else
      let total_duration :=
        qsum (type_dets.filterMap (fun d => d.duration_samples.map (fun n => (n : ℚ))))
      match burdenEntries rest dets total_samples with
      | .error e => .error e
      | .ok entries => .ok ((t, total_duration / (total_samples : ℚ) * 100) :: entries)

/-- `_calculate_burden`: per-type percentage of total samples covered by
detections with a known duration; only types with detections appear.
Raises (models) `ZeroDivisionError` when detections exist but the
selected signal is empty. -/
def calculateBurden (dets : List ArrhythmiaDetection) (total_samples : ℕ) :
    Except String (List (ArrhythmiaType × ℚ)) :=
  burdenEntries ArrhythmiaType.all dets total_samples

/-- `_identify_critical_findings`: fixed text templates for VFib, severe
VT, third-degree block and severe bradycardia. -/
def identifyCriticalFindings (dets : List ArrhythmiaDetection) : List String :=
  dets.flatMap (fun d =>
    if d.type = .vfib then
      ["VENTRICULAR FIBRILLATION - IMMEDIATE DEFIBRILLATION REQUIRED"]
    else if d.type = .vt ∧ d.severity = "severe" then
      ["SEVERE VENTRICULAR TACHYCARDIA - URGENT INTERVENTION NEEDED"]
    else if d.type = .thirdDegreeBlock then
      ["COMPLETE HEART BLOCK - PACEMAKER EVALUATION NEEDED"]
    else if d.type = .bradycardia ∧ d.severity = "severe" then
      ["SEVERE BRADYCARDIA - ASSESS FOR HEMODYNAMIC COMPROMISE"]
    else [])

/-- `_generate_recommendations`: AFib / VT guidance keyed on the primary
rhythm, a Holter suggestion above 10 PVCs, and a routine-monitoring
default. -/
def generateRecommendations (dets : List ArrhythmiaDetection)
    (primary_rhythm : ArrhythmiaType) : List String :=
  let base : List String :=
    if primary_rhythm = .afib then
      ["Consider anticoagulation therapy (CHA2DS2-VASc score)",
       "Rate control with beta-blockers or calcium channel blockers",
       "Consider rhythm control strategy if symptomatic"]
    else if primary_rhythm = .vt then
      ["Immediate cardiology consultation",
       "Assess for underlying structural heart disease",
       "Consider ICD placement if recurrent"]
    else []
  let pvc_count := typeCount dets .pvc
  let withPvc :=
    if 10 < pvc_count then
      base ++ ["Frequent PVCs detected (" ++ toString pvc_count ++
        ") - consider 24hr Holter monitoring"]
    else base
  if withPvc.length = 0 then ["Continue routine cardiac monitoring"] else withPvc

/-- `_select_primary_lead`: lead "II", else "I", else the first entry of
the dict.  `none` models the `StopIteration` raised by
`next(iter(signals.items()))` on an empty dict. -/
def selectPrimaryLead (signals : List (String × List ℚ)) :
    Option (String × List ℚ) :=
  match signals.lookup "II" with
  | some s => some ("II", s)
  | none =>
    match signals.lookup "I" with
    | some s => some ("I", s)
    | none => signals.head?

/-- `_detect_r_peaks`: an order-2 Butterworth band-pass run through
`filtfilt` (whose default pad length is `3 * max(len(a), len(b)) = 15`
here), then squaring, 120 ms moving-average integration and
`find_peaks`.  `filtfilt` raises `ValueError` whenever the signal has
15 or fewer samples; beyond that, the peak locations produced by the
SciPy chain are modelled by the `rdetect` parameter. -/
def detectRPeaks (rdetect : List ℚ → List ℕ) (signal : List ℚ) :
    Except String (List ℕ) :=
  if signal.length ≤ 15 then
    .error "ValueError: The length of the input vector x must be greater than padlen, which is 15."
  else .ok (rdetect signal)

/-- The peak source used by `detect`: supplied peaks for the selected
lead when present, else the computed ones (`_detect_r_peaks`, which can
fail - see `detectRPeaks`). -/
def detectPeaksOf (rdetect : List ℚ → List ℕ) (lead_name : String)
    (signal : List ℚ) (r_peaks : Option (List (String × List ℕ))) :
    Except String (List ℕ) :=
  match r_peaks with
  | none => detectRPeaks rdetect signal
  | some rp =>
    match rp.lookup lead_name with
    | none => detectRPeaks rdetect signal
    | some p => .ok p

/-- `ArrhythmiaDetector.detect`.  The external SciPy routines are
passed as parameters: `welchFn` models `scipy.signal.welch` (returning
the frequency grid and power spectral density used by the flutter pass)
and `rdetect` models the successful output of the `_detect_r_peaks`
SciPy chain (see `detectRPeaks` for its failure mode).  The `Except`
result models the exceptions `detect` can raise: `StopIteration` from
`_select_primary_lead` on an empty dict, `ValueError` from `filtfilt`
on a 15-sample-or-shorter signal when peaks must be computed, and
`ZeroDivisionError` from `_calculate_burden` when detections exist but
the selected signal is empty. -/
noncomputable def ArrhythmiaDetector.detect (cfg : ArrhythmiaDetectorConfig)
    (welchFn : List ℚ → List ℚ × List ℚ) (rdetect : List ℚ → List ℕ)
    (signals : List (String × List ℚ))
    (r_peaks : Option (List (String × List ℕ))) : Except String ArrhythmiaReport :=
  match selectPrimaryLead signals with
  | none => .error "StopIteration"
  | some (lead_name, signal) =>
    (detectPeaksOf rdetect lead_name signal r_peaks).bind (fun peaks =>
      let rr := if 1 < peaks.length then diffQ peaks else []
      let wout := welchFn signal
      let dets :=
        detectRateAbnormalities cfg.sample_rate rr ++
        detectAfib rr signal peaks ++
        detectAflutter wout.1 wout.2 ++
        detectVentricularArrhythmias cfg.sample_rate signal peaks rr ++
        detectEctopicBeats cfg.sample_rate signal peaks rr ++
        detectHeartBlocks signal peaks rr
      let primary_rhythm := determinePrimaryRhythm dets rr
      let stats := calculateHeartRateStats cfg.sample_rate rr
      let rr_irregularity : ℝ := if 0 < rr.length then variationR rr else 0
      let ectopic_beats :=
        (dets.filter (fun d => decide (d.type = .pvc) || decide (d.type = .pac))).length
      (calculateBurden dets signal.length).map (fun burden =>
        { detections := dets
          primary_rhythm := primary_rhythm
          heart_rate_mean := stats.1
          heart_rate_std := stats.2
          rr_irregularity := rr_irregularity
          ectopic_beats := ectopic_beats
          burden_percent := burden
          critical_findings := identifyCriticalFindings dets
          recommendations := generateRecommendations dets primary_rhythm }))

/-! ## QT analyzer (`clinical/qt_analysis.py`) -/

/-- `np.diff` of a rational-valued array. -/
def qdiff (l : List ℚ) : List ℚ :=
  List.zipWith (fun a b => b - a) l l.tail

/-- Mean of a list of reals (guarded against the empty list as for
`qmean`). -/
noncomputable def rmean (l : List ℝ) : ℝ := l.sum / l.length

/-- `max` of a list of reals (0 on the empty list, unreachable in the
guarded call sites). -/
noncomputable def rmaxList : List ℝ → ℝ
  | [] => 0
  | x :: xs => xs.foldl max x

/-- `min` of a list of reals (0 on the empty list). -/
noncomputable def rminList : List ℝ → ℝ
  | [] => 0
  | x :: xs => xs.foldl min x

/-- `QTRiskLevel` enumeration. -/
inductive QTRiskLevel where
  | normal
  | borderline
  | prolonged
  | severelyProlonged
  deriving DecidableEq, Repr

/-- `QTMeasurement` record.  The Bazett and Fridericia corrections
involve square/cube roots and live in `ℝ`. -/
structure QTMeasurement where
  qt_interval : ℚ
  qtc_bazett : ℝ
  qtc_fridericia : ℝ
  qtc_framingham : ℚ
  qtc_hodges : ℚ
  rr_interval : ℚ
  heart_rate : ℚ
  lead_name : String
  measurement_quality : ℝ

/-- `QTDispersion` record. -/
structure QTDispersion where
  max_qt : ℚ
  min_qt : ℚ
  dispersion : ℚ
  dispersion_qtc : ℝ
  lead_measurements : List (String × ℚ)

/-- `QTDispersion.is_abnormal`: dispersion above 100 ms. -/
def QTDispersion.isAbnormal (d : QTDispersion) : Prop := 100 < d.dispersion

/-- `QTAnalysis` record. -/
structure QTAnalysis where
  measurements : List QTMeasurement := []
  mean_qt : ℚ
  mean_qtc : ℝ
  std_qt : ℝ
  dispersion : Option QTDispersion := none
  risk_level : QTRiskLevel
  gender_specific_normal : Bool := true
  interpretation : String := ""
  clinical_notes : List String := []
  drug_interactions : List String := []

/-- Analyzer state after `QTAnalyzer.__init__`: only the sampling rate
is stored; no validation is performed (`qt_analysis.py` lines 100-101).
The class constants `NORMAL_QTC_MALE = (350, 450)` and
`NORMAL_QTC_FEMALE = (350, 470)` are modelled below. -/
structure QTAnalyzerConfig where
  sample_rate : ℚ
  deriving DecidableEq, Repr

/-- `QTAnalyzer.__init__`: stores the rate, nothing else. -/
def QTAnalyzer.init (sample_rate : ℚ) : QTAnalyzerConfig :=
  { sample_rate := sample_rate }

/-- Class constant `NORMAL_QTC_MALE` (ms). -/
def NORMAL_QTC_MALE : ℚ × ℚ := (350, 450)

/-- Class constant `NORMAL_QTC_FEMALE` (ms). -/
def NORMAL_QTC_FEMALE : ℚ × ℚ := (350, 470)

/-- Closed-form Savitzky-Golay smoothing coefficient for quadratic or
cubic local fits over a window of half-width `m` (these two orders share
the same smoothing kernel); the coefficients sum to 1. -/
def savgolCoeff (m : ℕ) (j : ℤ) : ℚ :=
  (3 * (3 * (m : ℚ) ^ 2 + 3 * m - 1) - 15 * (j : ℚ) ^ 2) /
    ((2 * (m : ℚ) - 1) * (2 * m + 1) * (2 * m + 3))

/-- Models the external `scipy.signal.savgol_filter(x, window, 3)`:
interior points are the least-squares convolution with the classical
quadratic/cubic coefficients; the boundary points (which SciPy fills by
evaluating edge polynomial fits) are modelled by the raw samples.  The
development relies only on linearity of the filter - in particular an
all-zero signal is mapped to itself - which holds for the SciPy filter
and for any boundary handling. -/
def savgolFilter (xs : List ℚ) (window : ℕ) : List ℚ :=
  let m := window / 2
  let n := xs.length
  (List.range n).map (fun i =>
    if i < m ∨ n ≤ i + m then (xs.get? i).getD 0
    else ((List.range window).map (fun k =>
      let idx : ℕ := i + k - m
      savgolCoeff m ((k : ℤ) - (m : ℤ)) * ((xs.get? idx).getD 0))).sum)

/-- `_find_t_wave_end`: smooth the beat segment, locate the T-peak in a
window from the assumed 150 ms QRS end to 500 ms, then scan forward for
the first sample within 10 % of the peak-to-baseline deviation; default
to 400 ms (or the segment end) when no such sample exists.  `none`
models the explicit early `return None` paths. -/
def findTWaveEnd (sample_rate : ℚ) (beat_segment : List ℚ) : Option ℕ :=
  if beat_segment.length < 50 then none
  else
    let wl0 := min 51 (beat_segment.length - 1)
    let window_length := if wl0 % 2 = 0 then wl0 - 1 else wl0
    if window_length < 5 then none
    else
      let smoothed := savgolFilter beat_segment window_length
      let qrs_end := qfloor (0.15 * sample_rate)
      let t_search_start := min qrs_end (smoothed.length - 10)
      let t_search_end := min (qfloor (0.5 * sample_rate)) smoothed.length
      if t_search_end ≤ t_search_start then none
      else
        let t_wave_region := slice smoothed t_search_start t_search_end
        let t_peak_idx := argmaxQ (t_wave_region.map (fun x => |x|)) + t_search_start
        let baseline :=
          if 50 < smoothed.length then qmedian (smoothed.drop (smoothed.length - 50))
          else 0
        let threshold := 0.1 * |((smoothed.get? t_peak_idx).getD 0) - baseline|
        match (List.range' t_peak_idx (smoothed.length - t_peak_idx)).find?
            (fun i => decide (|((smoothed.get? i).getD 0) - baseline| < threshold)) with
        | some i => some i
        | none =>
          let default_qt := qfloor (0.4 * sample_rate)
          some (min default_qt (beat_segment.length - 1))

/-- Bazett formula `QTc = QT / sqrt(RR)` (QT in ms, RR in seconds). -/
noncomputable def correctQtBazett (qt_ms : ℚ) (rr_sec : ℚ) : ℝ :=
  (qt_ms : ℝ) / Real.sqrt (rr_sec : ℝ)

/-- Fridericia formula `QTc = QT / RR^(1/3)`. -/
noncomputable def correctQtFridericia (qt_ms : ℚ) (rr_sec : ℚ) : ℝ :=
  (qt_ms : ℝ) / ((rr_sec : ℝ) ^ ((1 : ℝ) / 3))

/-- Framingham formula `QTc = QT + 154 (1 - RR)`. -/
def correctQtFramingham (qt_ms : ℚ) (rr_sec : ℚ) : ℚ :=
  qt_ms + 154 * (1 - rr_sec)

/-- Hodges formula `QTc = QT + 1.75 (HR - 60)`. -/
def correctQtHodges (qt_ms : ℚ) (heart_rate : ℚ) : ℚ :=
  qt_ms + 1.75 * (heart_rate - 60)

/-- `_assess_measurement_quality`: starts at 1.0, × 0.8 when the
sample-to-sample noise exceeds 10 % of the segment standard deviation,
× 0.7 when the detected offset is more than 200 ms from the expected
350 ms, clamped to [0, 1]. -/
noncomputable def assessMeasurementQuality (sample_rate : ℚ)
    (beat_segment : List ℚ) (t_end : ℕ) : ℝ :=
  let quality : ℝ := 1.0
  let noise_level := stdR (qdiff beat_segment)
  let q1 := if 0.1 * stdR beat_segment < noise_level then quality * 0.8 else quality
  let expected_t_end := qfloor (0.35 * sample_rate)
  let q2 :=
    if qfloor (0.2 * sample_rate) < ((t_end : ℤ) - (expected_t_end : ℤ)).natAbs
    then q1 * 0.7 else q1
  max 0 (min 1 q2)

/-- `_measure_qt_intervals`: for each consecutive peak pair, extract the
beat from the R-peak to `min(next peak, +800 ms)`, skip segments shorter
than 200 ms, locate the T-wave end and produce one measurement with all
four corrections. -/
noncomputable def measureQtIntervals (sample_rate : ℚ) (signal : List ℚ)
    (r_peaks : List ℕ) (lead_name : String) : List QTMeasurement :=
  (r_peaks.zip r_peaks.tail).filterMap (fun pr =>
    let r_peak := pr.1
    let next_r_peak := pr.2
    let beat_end := min next_r_peak (r_peak + qfloor (0.8 * sample_rate))
    let beat_segment := slice signal r_peak beat_end
    if beat_segment.length < qfloor (0.2 * sample_rate) then none
    else
      match findTWaveEnd sample_rate beat_segment with
      | none => none
      | some t_end_offset =>
        let qt_ms := (t_end_offset : ℚ) / sample_rate * 1000
        let rr_sec := ((next_r_peak : ℚ) - (r_peak : ℚ)) / sample_rate
        let heart_rate := 60 / rr_sec
        some
          { qt_interval := qt_ms
            qtc_bazett := correctQtBazett qt_ms rr_sec
            qtc_fridericia := correctQtFridericia qt_ms rr_sec
            qtc_framingham := correctQtFramingham qt_ms rr_sec
            qtc_hodges := correctQtHodges qt_ms heart_rate
            rr_interval := rr_sec * 1000
            heart_rate := heart_rate
            lead_name := lead_name
            measurement_quality := assessMeasurementQuality sample_rate beat_segment t_end_offset })

/-- Lead names in first-occurrence order (insertion order of the Python
grouping dicts in `_calculate_dispersion`). -/
def measurementLeads (measurements : List QTMeasurement) : List String :=
  (measurements.map (fun m => m.lead_name)).foldl
    (fun acc l => if l ∈ acc then acc else acc ++ [l]) []

/-- `_calculate_dispersion`: group measurements by lead, average QT and
Bazett QTc per lead, and report max - min in both forms. -/
noncomputable def calculateDispersion (measurements : List QTMeasurement) :
    QTDispersion :=
  let leads := measurementLeads measurements
  let lead_mean_qt := leads.map (fun l =>
    (l, qmean ((measurements.filter (fun m => decide (m.lead_name = l))).map
      (fun m => m.qt_interval))))
  let lead_mean_qtc := leads.map (fun l =>
    (l, rmean ((measurements.filter (fun m => decide (m.lead_name = l))).map
      (fun m => m.qtc_bazett))))
  let qt_values := lead_mean_qt.map Prod.snd
  let qtc_values := lead_mean_qtc.map Prod.snd
  { max_qt := qmax qt_values
    min_qt := qmin qt_values
    dispersion := qmax qt_values - qmin qt_values
    dispersion_qtc := rmaxList qtc_values - rminList qtc_values
    lead_measurements := lead_mean_qt }

/-- Python truthiness plus `gender.upper() == target` (an empty string
is falsy, and also fails the comparison, so the upper-case test alone is
faithful). -/
def genderMatches (gender : Option String) (target : String) : Bool :=
  match gender with
  | some s => s.toUpper == target
  | none => false

/-- `_assess_risk`: gender-specific thresholds.  Male and female
thresholds are `normal_max + 10` and `normal_max + 30`; the
gender-neutral branch uses the literals 460 / 470 / 500. -/
noncomputable def assessRisk (qtc : ℝ) (gender : Option String) : QTRiskLevel :=
  let thresholds : ℚ × ℚ × ℚ :=
    if genderMatches gender "M" then
      let normal_max := NORMAL_QTC_MALE.2
      (normal_max, normal_max + 10, normal_max + 30)
    else if genderMatches gender "F" then
      let normal_max := NORMAL_QTC_FEMALE.2
      (normal_max, normal_max + 10, normal_max + 30)
    else (460, 470, 500)
  if (thresholds.2.2 : ℝ) < qtc then .severelyProlonged
  else if (thresholds.2.1 : ℝ) < qtc then .prolonged
  else if (thresholds.1 : ℝ) < qtc then .borderline
  else .normal

/-- `_generate_interpretation` (interpolated numbers elided): risk-keyed
fixed text plus an optional dispersion note. -/
noncomputable def generateInterpretation (risk : QTRiskLevel)
    (dispersion : Option QTDispersion) : String :=
  let base :=
    match risk with
    | .normal => "QT interval - Within normal limits."
    | .borderline => "QT interval - Borderline prolonged. Monitor and recheck."
    | .prolonged => "QT interval - PROLONGED. Risk of torsades de pointes."
    | .severelyProlonged =>
        "QT interval - SEVERELY PROLONGED. HIGH RISK of sudden cardiac death."
  match dispersion with
  | some d => if 100 < d.dispersion then base ++ " QT dispersion is elevated." else base
  | none => base

/-- `_generate_clinical_notes`: fixed recommendation strings keyed by
risk level and abnormal dispersion, with a no-intervention default. -/
noncomputable def generateClinicalNotes (risk : QTRiskLevel)
    (dispersion : Option QTDispersion) : List String :=
  let n1 : List String :=
    if risk = .prolonged ∨ risk = .severelyProlonged then
      ["Review all medications for QT-prolonging drugs",
       "Check electrolytes (K+, Mg2+, Ca2+)",
       "Consider genetic testing for congenital LQTS",
       "Avoid strenuous exercise"]
    else []
  let n2 : List String :=
    if risk = .severelyProlonged then
      ["URGENT: Consider ICD placement if symptomatic",
       "Strict avoidance of QT-prolonging medications"]
    else []
  let n3 : List String :=
    match dispersion with
    | some d =>
      if 100 < d.dispersion then
        ["Elevated QT dispersion suggests increased arrhythmia risk"]
      else []
    | none => []
  let notes := n1 ++ n2 ++ n3
  if notes.length = 0 then ["No specific interventions required"] else notes

/-- `_check_drug_interactions`: the fixed reference list of
QT-prolonging drug classes, returned whenever risk is above normal. -/
def checkDrugInteractions (risk : QTRiskLevel) : List String :=
  if risk = .normal then []
  else
    ["Antiarrhythmics: amiodarone, sotalol, quinidine",
     "Antibiotics: azithromycin, levofloxacin, moxifloxacin",
     "Antipsychotics: haloperidol, ziprasidone, quetiapine",
     "Antidepressants: citalopram, escitalopram",
     "Antiemetics: ondansetron, droperidol",
     "Antifungals: fluconazole, ketoconazole"]

/-- `QTAnalyzer.analyze`: per-lead measurement extraction (skipping
leads with fewer than 2 supplied peaks), a fixed default report when no
measurement is possible, dispersion when at least 2 measurements exist,
and risk stratification of the mean Bazett QTc. -/
noncomputable def QTAnalyzer.analyze (cfg : QTAnalyzerConfig)
    (signals : List (String × List ℚ)) (r_peaks : List (String × List ℕ))
    (gender : Option String) : QTAnalysis :=
  let measurements := signals.flatMap (fun ls =>
    match r_peaks.lookup ls.1 with
    | none => []
    | some p => if p.length < 2 then [] else measureQtIntervals cfg.sample_rate ls.2 p ls.1)
  if measurements.length = 0 then
    { mean_qt := 400.0
      mean_qtc := 420.0
      std_qt := 20.0
      risk_level := .normal
      interpretation := "Unable to measure QT intervals" }
  else
    let qt_values := measurements.map (fun m => m.qt_interval)
    let qtc_values := measurements.map (fun m => m.qtc_bazett)
    let mean_qt := qmean qt_values
    let mean_qtc := rmean qtc_values
    let std_qt := stdR qt_values
    let dispersion :=
      if 2 ≤ measurements.length then some (calculateDispersion measurements) else none
    let risk_level := assessRisk mean_qtc gender
    { measurements := measurements
      mean_qt := mean_qt
      mean_qtc := mean_qtc
      std_qt := std_qt
      dispersion := dispersion
      risk_level := risk_level
      gender_specific_normal := gender.isSome
      interpretation := generateInterpretation risk_level dispersion
      clinical_notes := generateClinicalNotes risk_level dispersion
      drug_interactions := checkDrugInteractions risk_level }

/-! ## Clinical interpreter (`findings.py`)

`FindingCategory` is embedded exactly as the source enum declares it:
it has NO `MORPHOLOGY` member, although `_assess_morphology` constructs
findings with `FindingCategory.MORPHOLOGY`.  Evaluating that attribute
raises `AttributeError` in Python; the embedding gives
`_assess_morphology` an `Except` result to model this. -/

/-- `Severity` enumeration (total order normal < benign < mild <
moderate < severe < critical). -/
inductive Severity where
  | normal
  | benign
  | mild
  | moderate
  | severe
  | critical
  deriving DecidableEq, Repr

/-- `FindingCategory` enumeration, exactly the members declared at
`findings.py` lines 34-42.  There is no morphology member. -/
inductive FindingCategory where
  | rhythm
  | conduction
  | ischemia
  | hypertrophy
  | electrolyte
  | drugEffect
  | artifact
  deriving DecidableEq, Repr

/-- `ClinicalFinding` record. -/
structure ClinicalFinding where
  category : FindingCategory
  name : String
  description : String
  severity : Severity
  confidence : ℚ
  evidence : List String := []
  clinical_significance : String := ""
  differential_diagnoses : List String := []

/-- `ClinicalConclusion` record. -/
structure ClinicalConclusion where
  primary_diagnosis : String
  additional_findings : List String := []
  severity : Severity
  urgent_action_required : Bool := false
  recommendations : List String := []
  follow_up : String := ""
  prognosis : String := ""

/-- `AutomatedFindings` record. -/
structure AutomatedFindings where
  findings : List ClinicalFinding
  conclusion : ClinicalConclusion
  axis : Option String := none
  rhythm_description : String := ""
  rate_description : String := ""
  interval_description : String := ""
  morphology_notes : List String := []
  comparison_with_normal : List (String × String) := []

/-- `Intervals` record (`ecg2signal/types.py`).  Optional floats model
`float | None`. -/
structure Intervals where
  heart_rate : Option ℚ := none
  pr_interval : Option ℚ := none
  qrs_duration : Option ℚ := none
  qt_interval : Option ℚ := none
  qtc_interval : Option ℚ := none
  rr_intervals : List ℚ := []
  p_wave_duration : Option ℚ := none
  t_wave_duration : Option ℚ := none

/-- `QualityMetrics` record (`ecg2signal/types.py`); the source field
`clipping_ratio` is named `clipping_fraction` here. -/
structure QualityMetrics where
  snr : ℚ
  baseline_drift : ℚ
  clipping_fraction : ℚ := 0
  coverage : ℚ
  confidence : ℚ
  lead_quality : List (String × ℚ) := []

/-- Python truthiness of an optional float: `None` and `0.0` are falsy.
The source tests intervals with `if intervals.pr_interval:` etc. -/
def optTruthy (o : Option ℚ) : Bool :=
  match o with
  | some q => q != 0
  | none => false

/-- Truthiness of an optional integer (patient age). -/
def optTruthyInt (o : Option ℤ) : Bool :=
  match o with
  | some n => n != 0
  | none => false

/-- `ArrhythmiaType.value.replace('_', ' ').title()`: the display name
used for rhythm findings. -/
def arrhythmiaDisplayName : ArrhythmiaType → String
  | .normal => "Normal"
  | .afib => "Atrial Fibrillation"
  | .aflutter => "Atrial Flutter"
  | .vt => "Ventricular Tachycardia"
  | .vfib => "Ventricular Fibrillation"
  | .pvc => "Premature Ventricular Contraction"
  | .pac => "Premature Atrial Contraction"
  | .bradycardia => "Bradycardia"
  | .tachycardia => "Tachycardia"
  | .firstDegreeBlock => "First Degree Av Block"
  | .secondDegreeBlock => "Second Degree Av Block"
  | .thirdDegreeBlock => "Third Degree Av Block"
  | .sinusArrhythmia => "Sinus Arrhythmia"

/-- `_map_arrhythmia_severity`: dictionary lookup with default mild. -/
def mapArrhythmiaSeverity : ArrhythmiaType → Severity
  | .vfib => .critical
  | .vt => .critical
  | .thirdDegreeBlock => .critical
  | .afib => .severe
  | .aflutter => .severe
  | .secondDegreeBlock => .moderate
  | .firstDegreeBlock => .mild
  | .pvc => .mild
  | .pac => .benign
  | .bradycardia => .moderate
  | .tachycardia => .moderate
  | _ => .mild

/-- `_get_arrhythmia_significance`: dictionary lookup with default "". -/
def getArrhythmiaSignificance : ArrhythmiaType → String
  | .vfib => "FATAL - Immediate defibrillation required"
  | .vt => "Life-threatening - High risk of sudden cardiac death"
  | .afib => "Stroke risk - Consider anticoagulation"
  | .thirdDegreeBlock => "Complete AV dissociation - Pacemaker needed"
  | _ => ""

/-- `_assess_rhythm`: uses the arrhythmia report primary rhythm when a
report is supplied, else classifies the RR coefficient of variation. -/
noncomputable def assessRhythm (intervals : Intervals)
    (arrhythmia : Option ArrhythmiaReport) : List ClinicalFinding :=
  match arrhythmia with
  | some arr =>
    if arr.primary_rhythm ≠ ArrhythmiaType.normal then
      [{ category := .rhythm
         name := arrhythmiaDisplayName arr.primary_rhythm
         description := "Primary rhythm"
         severity := mapArrhythmiaSeverity arr.primary_rhythm
         confidence := 0.85
         evidence := ["RR irregularity"]
         clinical_significance := getArrhythmiaSignificance arr.primary_rhythm }]
    else []
  | none =>
    if intervals.rr_intervals.length ≠ 0 then
      let rr_cv := variationR intervals.rr_intervals
      if rr_cv < 0.1 then
        [{ category := .rhythm
           name := "Regular Sinus Rhythm"
           description := "Normal sinus rhythm with regular RR intervals"
           severity := .normal
           confidence := 0.90
           evidence := ["RR variability"] }]
      else if 0.3 < rr_cv then
        [{ category := .rhythm
           name := "Irregular Rhythm"
           description := "Irregularly irregular rhythm detected"
           severity := .moderate
           confidence := 0.80
           evidence := ["RR variability"]
           clinical_significance := "Consider atrial fibrillation"
           differential_diagnoses :=
             ["Atrial fibrillation", "Atrial flutter with variable block"] }]
      else []
    else []

/-- `_assess_heart_rate`: age-adjusted normal ranges (note that the
source uses Python truthiness, so age 0 falls back to the adult 60-100
range), with bradycardia/tachycardia severities escalating at fixed
absolute rates 40/50 and 120/150 BPM. -/
def assessHeartRate (intervals : Intervals) (patient_age : Option ℤ) :
    List ClinicalFinding :=
  match intervals.heart_rate with
  | none => []
  | some hr =>
    let normal_range : ℚ × ℚ :=
      if optTruthyInt patient_age then
        match patient_age with
        | some a =>
          if a < 1 then (100, 160)
          else if a < 3 then (90, 150)
          else if a < 10 then (70, 120)
          else (60, 100)
        | none => (60, 100)
      else (60, 100)
    if hr < normal_range.1 then
      [{ category := .rhythm
         name := "Bradycardia"
         description := "Heart rate below normal range"
         severity :=
           if hr < 40 then .severe else if hr < 50 then .moderate else .mild
         confidence := 0.95
         evidence := ["HR"]
         clinical_significance :=
           "May indicate sinus node dysfunction, AV block, or vagal tone"
         differential_diagnoses :=
           ["Sinus bradycardia", "Second-degree AV block", "Third-degree AV block",
            "Medication effect (beta-blockers, calcium channel blockers)"] }]
    else if normal_range.2 < hr then
      [{ category := .rhythm
         name := "Tachycardia"
         description := "Heart rate above normal range"
         severity :=
           if 150 < hr then .severe else if 120 < hr then .moderate else .mild
         confidence := 0.95
         evidence := ["HR"]
         clinical_significance := "May indicate sinus tachycardia, SVT, or VT"
         differential_diagnoses :=
           ["Sinus tachycardia", "Supraventricular tachycardia",
            "Atrial fibrillation with RVR", "Ventricular tachycardia"] }]
    else []

/-- `_assess_intervals`: PR below 120 ms (pre-excitation), PR above
200 ms (first-degree block, escalating past 250 ms), QRS above 120 ms
(bundle-branch block, escalating past 140 ms).  A zero measured value is
falsy in Python and produces no finding. -/
def assessIntervals (intervals : Intervals) (_patient_gender : Option String) :
    List ClinicalFinding :=
  let pr_findings : List ClinicalFinding :=
    if optTruthy intervals.pr_interval then
      let pr := intervals.pr_interval.getD 0
      if pr < 120 then
        [{ category := .conduction
           name := "Short PR Interval"
           description := "PR interval below normal range"
           severity := .mild
           confidence := 0.85
           evidence := ["PR"]
           clinical_significance := "May indicate pre-excitation (WPW syndrome)"
           differential_diagnoses := ["WPW syndrome", "Lown-Ganong-Levine syndrome"] }]
      else if 200 < pr then
        [{ category := .conduction
           name := "Prolonged PR Interval (First-Degree AV Block)"
           description := "PR interval above normal range"
           severity := if pr < 250 then .moderate else .severe
           confidence := 0.90
           evidence := ["PR"]
           clinical_significance := "First-degree AV block, may progress"
           differential_diagnoses :=
             ["First-degree AV block", "Medication effect", "Ischemia"] }]
      else []
    else []
  let qrs_findings : List ClinicalFinding :=
    if optTruthy intervals.qrs_duration then
      let qrs := intervals.qrs_duration.getD 0
      if 120 < qrs then
        [{ category := .conduction
           name := "Wide QRS Complex"
           description := "QRS duration above normal range"
           severity := if qrs < 140 then .moderate else .severe
           confidence := 0.88
           evidence := ["QRS"]
           clinical_significance := "Bundle branch block or ventricular origin"
           differential_diagnoses :=
             ["Right bundle branch block", "Left bundle branch block",
              "Ventricular rhythm", "Hyperkalemia"] }]
      else []
    else []
  pr_findings ++ qrs_findings

/-- `_assess_qt_intervals`: QT risk levels map to finding severities
(borderline to mild, prolonged to severe, severely-prolonged to
critical), plus a dispersion finding above 100 ms. -/
def assessQtIntervals (qt_analysis : QTAnalysis) (_patient_gender : Option String) :
    List ClinicalFinding :=
  let risk_findings : List ClinicalFinding :=
    if qt_analysis.risk_level = .borderline then
      [{ category := .conduction
         name := "Borderline QT Prolongation"
         description := qt_analysis.interpretation
         severity := .mild
         confidence := 0.80
         evidence := ["QTc"]
         clinical_significance := "Monitor for progression, check medications"
         differential_diagnoses :=
           if qt_analysis.drug_interactions.length ≠ 0 then
             qt_analysis.drug_interactions.take 3
           else [] }]
    else if qt_analysis.risk_level = .prolonged then
      [{ category := .conduction
         name := "Prolonged QT Interval"
         description := qt_analysis.interpretation
         severity := .severe
         confidence := 0.88
         evidence := ["QTc"]
         clinical_significance := "Risk of torsades de pointes and sudden cardiac death"
         differential_diagnoses :=
           ["Congenital long QT syndrome", "Drug-induced QT prolongation",
            "Electrolyte imbalance", "Myocardial ischemia"] }]
    else if qt_analysis.risk_level = .severelyProlonged then
      [{ category := .conduction
         name := "Severely Prolonged QT Interval"
         description := qt_analysis.interpretation
         severity := .critical
         confidence := 0.92
         evidence := ["QTc"]
         clinical_significance := "CRITICAL: High risk of sudden cardiac death"
         differential_diagnoses :=
           ["Congenital long QT syndrome (types 1-17)",
            "Severe electrolyte abnormality", "Drug toxicity"] }]
    else []
  let dispersion_findings : List ClinicalFinding :=
    match qt_analysis.dispersion with
    | some d =>
      if 100 < d.dispersion then
        [{ category := .conduction
           name := "Increased QT Dispersion"
           description := "QT dispersion above normal"
           severity := .moderate
           confidence := 0.75
           evidence := ["Dispersion"]
           clinical_significance := "Associated with increased arrhythmia risk" }]
      else []
    | none => []
  risk_findings ++ dispersion_findings

/-- `_assess_axis`: mean-amplitude signs of leads I and aVF decide the
axis; `none` when either lead is missing.  The zero-amplitude edge cases
fall through to the extreme-deviation branch, as in the source
if/elif/else chain. -/
def assessAxis (signals : List (String × List ℚ)) :
    Option String × List ClinicalFinding :=
  match signals.lookup "I", signals.lookup "aVF" with
  | some lead_i, some lead_avf =>
    let i_amplitude := qmean lead_i
    let avf_amplitude := qmean lead_avf
    if 0 < i_amplitude ∧ 0 < avf_amplitude then
      (some "Normal axis (0 to +90)", [])
    else if 0 < i_amplitude ∧ avf_amplitude < 0 then
      (some "Left axis deviation (-30 to -90)",
       [{ category := .conduction
          name := "Left Axis Deviation"
          description := "Left axis deviation (-30 to -90)"
          severity := .mild
          confidence := 0.75
          evidence := ["Lead I: positive, aVF: negative"]
          clinical_significance := "May indicate left ventricular hypertrophy or LAFB"
          differential_diagnoses :=
            ["Left anterior fascicular block", "Left ventricular hypertrophy",
             "Inferior MI"] }])
    else if i_amplitude < 0 ∧ 0 < avf_amplitude then
      (some "Right axis deviation (+90 to +180)",
       [{ category := .conduction
          name := "Right Axis Deviation"
          description := "Right axis deviation (+90 to +180)"
          severity := .moderate
          confidence := 0.75
          evidence := ["Lead I: negative, aVF: positive"]
          clinical_significance :=
            "May indicate right ventricular hypertrophy or pulmonary disease"
          differential_diagnoses :=
            ["Right ventricular hypertrophy", "Chronic lung disease",
             "Pulmonary embolism", "Left posterior fascicular block"] }])
    else
      (some "Extreme axis deviation (northwest axis)",
       [{ category := .conduction
          name := "Extreme Axis Deviation"
          description := "Extreme axis deviation (northwest axis)"
          severity := .severe
          confidence := 0.70
          evidence := ["Lead I: negative, aVF: negative"]
          clinical_significance :=
            "Unusual axis, consider lead misplacement or complex pathology" }])
  | _, _ => (none, [])

/-- `_assess_morphology`: for each precordial lead V1-V3 whose
max-minus-median amplitude is below 0.1 mV the source constructs a
finding with `FindingCategory.MORPHOLOGY` - an enum member that does not
exist - so the first triggering lead raises `AttributeError`.  `Except`
models that exception; the success value is always the empty list,
because no finding can ever be constructed. -/
def assessMorphology (signals : List (String × List ℚ)) :
    Except String (List ClinicalFinding) :=
  match signals with
  | [] => .ok []
  | (lead_name, signal) :: rest =>
    if lead_name = "V1" ∨ lead_name = "V2" ∨ lead_name = "V3" then
      let r_amplitude := qmax signal - qmedian signal
      if r_amplitude < 0.1 then
        .error "AttributeError: FindingCategory has no attribute MORPHOLOGY"
      else assessMorphology rest
    else assessMorphology rest

/-- `_assess_ischemia`: per lead, the mean of the fixed 80-120 ms window
minus the median baseline; elevation above 0.2 mV is a critical STEMI
finding, depression below -0.1 mV a severe ischemia finding.  An empty
window produces NaN in NumPy, which fails both comparisons; the
embedding guards it explicitly. -/
def assessIschemia (signals : List (String × List ℚ)) (sample_rate : ℚ) :
    List ClinicalFinding :=
  signals.flatMap (fun ls =>
    let lead_name := ls.1
    let signal := ls.2
    let baseline := qmedian signal
    let st_segment := slice signal (qfloor (0.08 * sample_rate)) (qfloor (0.12 * sample_rate))
    if st_segment.length = 0 then []
    else
      let st_elevation := qmean st_segment - baseline
      if 0.2 < st_elevation then
        [{ category := .ischemia
           name := "ST Elevation in " ++ lead_name
           description := "ST segment elevation detected in " ++ lead_name
           severity := .critical
           confidence := 0.70
           evidence := ["ST elevation"]
           clinical_significance := "STEMI - requires immediate intervention"
           differential_diagnoses :=
             ["Acute myocardial infarction", "Pericarditis", "Early repolarization"] }]
      else if st_elevation < -0.1 then
        [{ category := .ischemia
           name := "ST Depression in " ++ lead_name
           description := "ST segment depression detected in " ++ lead_name
           severity := .severe
           confidence := 0.70
           evidence := ["ST depression"]
           clinical_significance := "Myocardial ischemia or NSTEMI"
           differential_diagnoses := ["Myocardial ischemia", "NSTEMI", "Digitalis effect"] }]
      else [])

/-- `_assess_hypertrophy`: Sokolow-Lyon criterion `|min V1| + max V5 >
3.5 mV` yields one moderate LVH finding. -/
def assessHypertrophy (signals : List (String × List ℚ)) :
    List ClinicalFinding :=
  match signals.lookup "V1", signals.lookup "V5" with
  | some v1, some v5 =>
    let s_v1 := |qmin v1|
    let r_v5 := qmax v5
    let sokolow_lyon := s_v1 + r_v5
    if 3.5 < sokolow_lyon then
      [{ category := .hypertrophy
         name := "Left Ventricular Hypertrophy"
         description := "Voltage criteria for LVH (Sokolow-Lyon)"
         severity := .moderate
         confidence := 0.75
         evidence := ["S(V1) + R(V5)"]
         clinical_significance := "Associated with hypertension and heart failure risk"
         differential_diagnoses :=
           ["Essential hypertension", "Aortic stenosis", "Athletic heart"] }]
    else []
  | _, _ => []

/-- `_assess_quality_issues`: artifact findings for SNR below 10 dB,
baseline drift above 0.3, and clipping above 5 %. -/
def assessQualityIssues (quality : QualityMetrics) : List ClinicalFinding :=
  (if quality.snr < 10 then
    [{ category := .artifact
       name := "Poor Signal Quality"
       description := "Low signal-to-noise ratio"
       severity := .mild
       confidence := 0.95
       evidence := ["SNR"]
       clinical_significance := "Interpretation may be limited by signal quality" }]
  else []) ++
  (if 0.3 < quality.baseline_drift then
    [{ category := .artifact
       name := "Baseline Wander"
       description := "Significant baseline drift detected"
       severity := .mild
       confidence := 0.90
       evidence := ["Drift"]
       clinical_significance := "May affect ST segment interpretation" }]
  else []) ++
  (if 0.05 < quality.clipping_fraction then
    [{ category := .artifact
       name := "Signal Clipping"
       description := "Part of the signal is clipped"
       severity := .moderate
       confidence := 0.95
       evidence := ["Clipping"]
       clinical_significance := "Amplitude measurements may be inaccurate" }]
  else [])

/-- `QTAnalysis.is_prolonged`: risk level prolonged or severely
prolonged. -/
def QTAnalysis.isProlonged (q : QTAnalysis) : Bool :=
  decide (q.risk_level = .prolonged) || decide (q.risk_level = .severelyProlonged)

/-- `_generate_rhythm_description` (interpolated numbers elided). -/
noncomputable def generateRhythmDescription (intervals : Intervals)
    (arrhythmia : Option ArrhythmiaReport) : String :=
  let from_arr : Option String :=
    match arrhythmia with
    | some a =>
      if a.primary_rhythm ≠ ArrhythmiaType.normal then
        some (arrhythmiaDisplayName a.primary_rhythm)
      else none
    | none => none
  match from_arr with
  | some s => s
  | none =>
    if intervals.rr_intervals.length ≠ 0 then
      if variationR intervals.rr_intervals < 0.1 then "Regular sinus rhythm"
      else "Irregularly irregular rhythm"
    else "Rhythm assessment limited"

/-- `_generate_rate_description`. -/
def generateRateDescription (intervals : Intervals) (patient_age : Option ℤ) :
    String :=
  match intervals.heart_rate with
  | none => "Heart rate could not be determined"
  | some hr =>
    if optTruthyInt patient_age ∧ (patient_age.getD 0) < 10 then
      "Heart rate " ++ toString hr ++ " BPM (pediatric)"
    else if hr < 60 then "Bradycardia at " ++ toString hr ++ " BPM"
    else if 100 < hr then "Tachycardia at " ++ toString hr ++ " BPM"
    else "Normal heart rate at " ++ toString hr ++ " BPM"

/-- `_generate_interval_description`. -/
def generateIntervalDescription (intervals : Intervals) : String :=
  let pr_part : List String :=
    if optTruthy intervals.pr_interval then
      let pr := intervals.pr_interval.getD 0
      if pr < 120 ∨ 200 < pr then ["PR " ++ toString pr ++ " ms (abnormal)"]
      else ["PR " ++ toString pr ++ " ms (normal)"]
    else []
  let qrs_part : List String :=
    if optTruthy intervals.qrs_duration then
      let qrs := intervals.qrs_duration.getD 0
      if 120 < qrs then ["QRS " ++ toString qrs ++ " ms (wide)"]
      else ["QRS " ++ toString qrs ++ " ms (normal)"]
    else []
  let qtc_part : List String :=
    if optTruthy intervals.qtc_interval then
      let qtc := intervals.qtc_interval.getD 0
      if 450 < qtc then ["QTc " ++ toString qtc ++ " ms (prolonged)"]
      else ["QTc " ++ toString qtc ++ " ms (normal)"]
    else []
  let parts := pr_part ++ qrs_part ++ qtc_part
  if parts.length = 0 then "Intervals within normal limits"
  else String.intercalate ", " parts

/-- `_generate_morphology_notes`. -/
def generateMorphologyNotes (signals : List (String × List ℚ)) : List String :=
  let v_leads := (signals.map Prod.fst).filter (fun k => k.startsWith "V")
  let limb_leads := (signals.map Prod.fst).filter
    (fun k => k == "I" || k == "II" || k == "III" ||
      k == "aVR" || k == "aVL" || k == "aVF")
  (if v_leads.length ≠ 0 then
    ["Precordial leads present: " ++ String.intercalate ", " v_leads]
  else []) ++
  (if limb_leads.length ≠ 0 then
    ["Limb leads present: " ++ String.intercalate ", " limb_leads]
  else [])

/-- `_compare_with_normal` (interpolated numbers elided where they are
floats). -/
def compareWithNormal (intervals : Intervals) (qt_analysis : Option QTAnalysis)
    (patient_age : Option ℤ) (_patient_gender : Option String) :
    List (String × String) :=
  let hr_cmp : List (String × String) :=
    if optTruthy intervals.heart_rate then
      let hr := intervals.heart_rate.getD 0
      let range_txt :=
        if optTruthyInt patient_age ∧ (patient_age.getD 0) < 10 then
          "70-120 BPM (pediatric)"
        else "60-100 BPM"
      if hr < 60 then [("Heart Rate", toString hr ++ " BPM (below normal " ++ range_txt ++ ")")]
      else if 100 < hr then [("Heart Rate", toString hr ++ " BPM (above normal " ++ range_txt ++ ")")]
      else [("Heart Rate", toString hr ++ " BPM (normal)")]
    else []
  let pr_cmp : List (String × String) :=
    if optTruthy intervals.pr_interval then
      let pr := intervals.pr_interval.getD 0
      if pr < 120 then [("PR Interval", "short, normal: 120-200 ms")]
      else if 200 < pr then [("PR Interval", "long, normal: 120-200 ms")]
      else [("PR Interval", "normal")]
    else []
  let qrs_cmp : List (String × String) :=
    if optTruthy intervals.qrs_duration then
      let qrs := intervals.qrs_duration.getD 0
      if 120 < qrs then [("QRS Duration", "wide, normal: under 120 ms")]
      else [("QRS Duration", "normal")]
    else []
  let qtc_cmp : List (String × String) :=
    match qt_analysis with
    | some q =>
      if QTAnalysis.isProlonged q then [("QTc", "prolonged")] else [("QTc", "normal")]
    | none => []
  hr_cmp ++ pr_cmp ++ qrs_cmp ++ qtc_cmp

/-- The severity walk order of the third conclusion branch. -/
def severityOrder : List Severity :=
  [.critical, .severe, .moderate, .mild, .benign]

/-- The primary-diagnosis core of `_generate_conclusion`: name, overall
severity and urgency.  First critical finding if any (urgent), else
first severe finding (urgent), else the first finding of the first
non-empty severity group in `severityOrder`, else "Normal ECG". -/
def conclusionCore (findings : List ClinicalFinding) : String × Severity × Bool :=
  match findings.filter (fun f => decide (f.severity = .critical)) with
  | f :: _ => (f.name, .critical, true)
  | [] =>
    match findings.filter (fun f => decide (f.severity = .severe)) with
    | f :: _ => (f.name, .severe, true)
    | [] =>
      if findings.length ≠ 0 then
        match severityOrder.findSome? (fun sev =>
          match findings.filter (fun f => decide (f.severity = sev)) with
          | f :: _ => some (f.name, sev, false)
          | [] => none) with
        | some t => t
        | none => ("Normal ECG", Severity.normal, false)
      else ("Normal ECG", Severity.normal, false)

/-- `_generate_conclusion`: primary diagnosis via `conclusionCore`, up
to 5 additional finding names, merged recommendations (urgent notice,
up to 3 arrhythmia recommendations, up to 2 QT notes, routine-care
default), and severity-keyed follow-up and prognosis strings. -/
def generateConclusion (findings : List ClinicalFinding)
    (arrhythmia : Option ArrhythmiaReport) (qt_analysis : Option QTAnalysis) :
    ClinicalConclusion :=
  let core := conclusionCore findings
  let primary_diagnosis := core.1
  let severity := core.2.1
  let urgent := core.2.2
  let additional :=
    ((findings.filter (fun f => decide (f.name ≠ primary_diagnosis))).map
      (fun f => f.name)).take 5
  let r1 : List String :=
    if urgent then ["URGENT: Immediate cardiology consultation required"] else []
  let r2 : List String :=
    match arrhythmia with
    | some a => if a.recommendations.length ≠ 0 then a.recommendations.take 3 else []
    | none => []
  let r3 : List String :=
    match qt_analysis with
    | some q => if q.clinical_notes.length ≠ 0 then q.clinical_notes.take 2 else []
    | none => []
  let recs := r1 ++ r2 ++ r3
  let recommendations :=
    if recs.length = 0 then
      ["Continue routine cardiac monitoring",
       "Repeat ECG in 6-12 months or if symptoms develop"]
    else recs
  let follow_up :=
    if urgent then "Immediate follow-up required"
    else if severity = .severe ∨ severity = .moderate then "Follow-up within 1-2 weeks"
    else "Routine follow-up as scheduled"
  let prognosis :=
    if severity = .critical then "Guarded - requires immediate intervention"
    else if severity = .severe then "Fair with appropriate treatment"
    else "Good with monitoring"
  { primary_diagnosis := primary_diagnosis
    additional_findings := additional
    severity := severity
    urgent_action_required := urgent
    recommendations := recommendations
    follow_up := follow_up
    prognosis := prognosis }

/-- `ClinicalInterpreter.interpret`: the nine assessment passes in
source order, appended into one findings list, followed by the
descriptive fields and the conclusion.  The `Except` propagates the
`AttributeError` raised inside `_assess_morphology` (pass 6); the
passes after it never run in that case, exactly as in Python. -/
noncomputable def ClinicalInterpreter.interpret
    (signals : List (String × List ℚ)) (sample_rate : ℚ)
    (intervals : Intervals) (quality : QualityMetrics)
    (arrhythmia : Option ArrhythmiaReport) (qt_analysis : Option QTAnalysis)
    (patient_age : Option ℤ) (patient_gender : Option String) :
    Except String AutomatedFindings :=
  let f1 := assessRhythm intervals arrhythmia
  let f2 := assessHeartRate intervals patient_age
  let f3 := assessIntervals intervals patient_gender
  let f4 :=
    match qt_analysis with
    | some qa => assessQtIntervals qa patient_gender
    | none => []
  let axis_res := assessAxis signals
  let f5 := axis_res.2
  match assessMorphology signals with
  | .error e => .error e
  | .ok f6 =>
    let f7 := assessIschemia signals sample_rate
    let f8 := assessHypertrophy signals
    let f9 := assessQualityIssues quality
    let findings := f1 ++ f2 ++ f3 ++ f4 ++ f5 ++ f6 ++ f7 ++ f8 ++ f9
    .ok
      { findings := findings
        conclusion := generateConclusion findings arrhythmia qt_analysis
        axis := axis_res.1
        rhythm_description := generateRhythmDescription intervals arrhythmia
        rate_description := generateRateDescription intervals patient_age
        interval_description := generateIntervalDescription intervals
        morphology_notes := generateMorphologyNotes signals
        comparison_with_normal :=
          compareWithNormal intervals qt_analysis patient_age patient_gender }

/-! ## Auxiliary definitions used by the theorems -/

/-- The risk classification as the spec words it, with the
gender-neutral prolonged threshold amended from `normal-max + 30` to
the literal 500 the code actually uses (`normal-max + 40`). -/
def qtcThresholdsSpecAmended (gender : Option String) : ℚ × ℚ × ℚ :=
  if genderMatches gender "M" then (450, 450 + 10, 450 + 30)
  else if genderMatches gender "F" then (470, 470 + 10, 470 + 30)
  else (460, 460 + 10, 460 + 40)

/-- Spec-side classification of a mean Bazett QTc against the amended
thresholds, for comparison with `assessRisk`. -/
noncomputable def assessRiskSpecAmended (qtc : ℝ) (gender : Option String) :
    QTRiskLevel :=
  let t := qtcThresholdsSpecAmended gender
  if (t.2.2 : ℝ) < qtc then .severelyProlonged
  else if (t.2.1 : ℝ) < qtc then .prolonged
  else if (t.1 : ℝ) < qtc then .borderline
  else .normal

/-- A severe-severity finding used in concrete witnesses. -/
def sampleSevereFinding (n : String) : ClinicalFinding :=
  { category := .conduction, name := n, description := "",
    severity := .severe, confidence := 0.9 }

/-- A critical-severity finding used in concrete witnesses. -/
def sampleCriticalFinding : ClinicalFinding :=
  { category := .ischemia, name := "ST Elevation in V2", description := "",
    severity := .critical, confidence := 0.7 }

/-- Concrete instantiation of the external PSD-estimator parameter
(`scipy.signal.welch`) used in closed statements; the corresponding
theorems quantify over arbitrary models. -/
def welchStub : List ℚ → List ℚ × List ℚ := fun _ => ([], [])

/-- Concrete instantiation of the external R-peak-detector parameter
used in closed statements. -/
def rdetectStub : List ℚ → List ℕ := fun _ => []

/-! ## Theorems for the claims -/

/-- C1: for every finding list given to the conclusion synthesis, if
some finding has severity Critical then the conclusion's primary
diagnosis is the name of the first Critical finding in list order, its
severity is Critical and urgent action is required. -/
theorem c1_critical_conclusion (findings : List ClinicalFinding)
    (arrhythmia : Option ArrhythmiaReport) (qt_analysis : Option QTAnalysis)
    (f : ClinicalFinding) (rest : List ClinicalFinding)
    (hcrit : findings.filter (fun g => decide (g.severity = Severity.critical)) =
      f :: rest) :
    (generateConclusion findings arrhythmia qt_analysis).primary_diagnosis = f.name ∧
    (generateConclusion findings arrhythmia qt_analysis).severity = Severity.critical ∧
    (generateConclusion findings arrhythmia qt_analysis).urgent_action_required = true := by
  unfold generateConclusion conclusionCore
  rw [hcrit]
  simp

/-- Witness for C1: one Critical finding among several Severe ones; the
Critical finding's name becomes the primary diagnosis and the urgent
flag is set. -/
theorem c1_witness :
    (generateConclusion
      [sampleSevereFinding "Wide QRS Complex", sampleCriticalFinding,
       sampleSevereFinding "ST Depression in V5", sampleSevereFinding "Prolonged QT Interval"]
      none none).primary_diagnosis = "ST Elevation in V2" ∧
    (generateConclusion
      [sampleSevereFinding "Wide QRS Complex", sampleCriticalFinding,
       sampleSevereFinding "ST Depression in V5", sampleSevereFinding "Prolonged QT Interval"]
      none none).severity = Severity.critical ∧
    (generateConclusion
      [sampleSevereFinding "Wide QRS Complex", sampleCriticalFinding,
       sampleSevereFinding "ST Depression in V5", sampleSevereFinding "Prolonged QT Interval"]
      none none).urgent_action_required = true :=
  c1_critical_conclusion _ none none sampleCriticalFinding [] rfl

/-- C4 counterexample: for the unknown gender the code classifies a mean
Bazett QTc of 495 ms as merely prolonged, although 495 exceeds the
claimed severely-prolonged threshold normal-max + 30 = 490. -/
theorem c4_counterexample :
    assessRisk 495 none = QTRiskLevel.prolonged ∧ ((460 : ℝ) + 30 < 495) := by
  constructor
  · unfold assessRisk genderMatches
    norm_num
  · norm_num

/-- C4 amended: classification uses gender-specific thresholds
normal-max/+10/+30 for male (450) and female (470), but the literals
460/470/500 for unknown gender - borderline at +10 yet prolonged at
+40, not +30. -/
theorem c4_amended (qtc : ℝ) (gender : Option String) :
    assessRisk qtc gender = assessRiskSpecAmended qtc gender := by
  unfold assessRisk assessRiskSpecAmended qtcThresholdsSpecAmended
    NORMAL_QTC_MALE NORMAL_QTC_FEMALE
  by_cases hm : genderMatches gender "M" <;>
    by_cases hf : genderMatches gender "F" <;>
      simp [hm, hf] <;> norm_num

/-- C5: neither constructor validates the sampling rate - a zero or
negative rate is stored as-is and the rate-derived thresholds are
computed from it (0.3 x rate and 2.0 x rate truncated toward zero)
instead of a descriptive error being raised. -/
theorem c5_constructors_accept_nonpositive_rate :
    ArrhythmiaDetector.init 0 =
      { sample_rate := 0, min_rr_interval := 0, max_rr_interval := 0 } ∧
    ArrhythmiaDetector.init (-250) =
      { sample_rate := -250, min_rr_interval := -75, max_rr_interval := -500 } ∧
    QTAnalyzer.init 0 = { sample_rate := 0 } := by
  refine ⟨?_, ?_, rfl⟩ <;>
    simp only [ArrhythmiaDetector.init, pyInt, ArrhythmiaDetectorConfig.mk.injEq]
  · norm_num
  · norm_num
    rw [show ((-75:ℚ)) = ((-75 : ℤ) : ℚ) by norm_num, Int.ceil_intCast,
      show ((-500:ℚ)) = ((-500 : ℤ) : ℚ) by norm_num, Int.ceil_intCast]
    norm_num

/-- C8: for beats with positive QT, the Bazett correction exceeds the
raw QT when RR < 1 s and is below it when RR > 1 s. -/
theorem c8_bazett_vs_raw (qt_ms rr_sec : ℚ) (hqt : 0 < qt_ms) (hrr : 0 < rr_sec) :
    (rr_sec < 1 → (qt_ms : ℝ) < correctQtBazett qt_ms rr_sec) ∧
    (1 < rr_sec → correctQtBazett qt_ms rr_sec < (qt_ms : ℝ)) := by
  unfold correctQtBazett
  have hrr' : (0 : ℝ) < (rr_sec : ℝ) := by exact_mod_cast hrr
  have hqt' : (0 : ℝ) < (qt_ms : ℝ) := by exact_mod_cast hqt
  have hs : (0 : ℝ) < Real.sqrt (rr_sec : ℝ) := Real.sqrt_pos.mpr hrr'
  constructor
  · intro h
    have h1 : Real.sqrt (rr_sec : ℝ) < 1 := by
      have : Real.sqrt (rr_sec : ℝ) < Real.sqrt 1 :=
        Real.sqrt_lt_sqrt (le_of_lt hrr') (by exact_mod_cast h)
      simpa using this
    rw [lt_div_iff₀ hs]
    exact mul_lt_of_lt_one_right hqt' h1
  · intro h
    have h1 : 1 < Real.sqrt (rr_sec : ℝ) := by
      have : Real.sqrt 1 < Real.sqrt (rr_sec : ℝ) :=
        Real.sqrt_lt_sqrt (by norm_num) (by exact_mod_cast h)
      simpa using this
    rw [div_lt_iff₀ hs]
    exact lt_mul_of_one_lt_right hqt' h1

/-- Witness for C8: at QT = 100 ms and RR = 4 s the Bazett correction is
below the raw QT. -/
theorem c8_witness :
    (0 : ℚ) < 100 ∧ (0 : ℚ) < 4 ∧ correctQtBazett 100 4 < ((100 : ℚ) : ℝ) :=
  ⟨by norm_num, by norm_num,
    (c8_bazett_vs_raw 100 4 (by norm_num) (by norm_num)).2 (by norm_num)⟩

/-- C9: tachycardia boundaries sit exactly at 100/120/150 BPM in both
the arrhythmia detector's rate pass (heart rate computed from the mean
RR) and the clinical interpreter's adult heart-rate assessment: exactly
100 gives no finding, 101 a mild tachycardia finding, above 120 up to
150 moderate, and 151 severe. -/
theorem c9_tachycardia_boundaries (sample_rate : ℚ) (rr : List ℚ)
    (intervals : Intervals) (hrv : ℚ)
    (hlen : rr.length ≠ 0)
    (hhr : 60 * sample_rate / qmean rr = hrv)
    (hint : intervals.heart_rate = some hrv) :
    (hrv = 100 →
      detectRateAbnormalities sample_rate rr = [] ∧
      assessHeartRate intervals none = []) ∧
    (hrv = 101 →
      (detectRateAbnormalities sample_rate rr).map (fun d => (d.type, d.severity)) =
        [(ArrhythmiaType.tachycardia, "mild")] ∧
      (assessHeartRate intervals none).map (fun f => (f.name, f.severity)) =
        [("Tachycardia", Severity.mild)]) ∧
    (120 < hrv ∧ hrv ≤ 150 →
      (detectRateAbnormalities sample_rate rr).map (fun d => (d.type, d.severity)) =
        [(ArrhythmiaType.tachycardia, "moderate")] ∧
      (assessHeartRate intervals none).map (fun f => (f.name, f.severity)) =
        [("Tachycardia", Severity.moderate)]) ∧
    (hrv = 151 →
      (detectRateAbnormalities sample_rate rr).map (fun d => (d.type, d.severity)) =
        [(ArrhythmiaType.tachycardia, "severe")] ∧
      (assessHeartRate intervals none).map (fun f => (f.name, f.severity)) =
        [("Tachycardia", Severity.severe)]) := by
  have hd : ∀ q : ℚ, 60 * sample_rate / qmean rr = q →
      detectRateAbnormalities sample_rate rr =
        (if q < 60 then
          [{ type := .bradycardia, confidence := 0.95,
             severity := if q < 40 then "severe" else if q < 50 then "moderate" else "mild",
             description := "Heart rate " ++ toString q ++ " BPM (normal: 60-100)",
             clinical_significance := "May indicate sinus node dysfunction or AV block" }]
        else if 100 < q then
          [{ type := .tachycardia, confidence := 0.95,
             severity := if 150 < q then "severe" else if 120 < q then "moderate" else "mild",
             description := "Heart rate " ++ toString q ++ " BPM (normal: 60-100)",
             clinical_significance := "May indicate sinus tachycardia, SVT, or VT" }]
        else []) := by
    intro q hq
    simp only [detectRateAbnormalities, hlen, if_false, hq]
  have ha : assessHeartRate intervals none =
      (if hrv < 60 then
        [{ category := .rhythm, name := "Bradycardia",
           description := "Heart rate below normal range",
           severity := if hrv < 40 then .severe else if hrv < 50 then .moderate else .mild,
           confidence := 0.95, evidence := ["HR"],
           clinical_significance :=
             "May indicate sinus node dysfunction, AV block, or vagal tone",
           differential_diagnoses :=
             ["Sinus bradycardia", "Second-degree AV block", "Third-degree AV block",
              "Medication effect (beta-blockers, calcium channel blockers)"] }]
      else if 100 < hrv then
        [{ category := .rhythm, name := "Tachycardia",
           description := "Heart rate above normal range",
           severity := if 150 < hrv then .severe else if 120 < hrv then .moderate else .mild,
           confidence := 0.95, evidence := ["HR"],
           clinical_significance := "May indicate sinus tachycardia, SVT, or VT",
           differential_diagnoses :=
             ["Sinus tachycardia", "Supraventricular tachycardia",
              "Atrial fibrillation with RVR", "Ventricular tachycardia"] }]
      else []) := by
    simp only [assessHeartRate, hint, optTruthyInt, Bool.false_eq_true, if_false]
  refine ⟨?_, ?_, ?_, ?_⟩
  · intro h
    subst h
    rw [hd 100 hhr, ha]
    norm_num
  · intro h
    subst h
    rw [hd 101 hhr, ha]
    norm_num
  · rintro ⟨h1, h2⟩
    have hgt : (100 : ℚ) < hrv := lt_trans (by norm_num) h1
    have hn60 : ¬ hrv < 60 := by linarith
    have hn150 : ¬ (150 : ℚ) < hrv := by linarith
    rw [hd hrv hhr, ha, if_neg hn60, if_pos hgt, if_neg hn150, if_pos h1,
      if_neg hn60, if_pos hgt, if_neg hn150, if_pos h1]
    norm_num
  · intro h
    subst h
    rw [hd 151 hhr, ha]
    norm_num

/-- Witness for C9: sampling rate 500 Hz with a single RR interval of
30000/101 samples gives a computed heart rate of exactly 101 BPM, and
both components emit exactly one mild tachycardia finding. -/
theorem c9_witness :
    (detectRateAbnormalities 500 [30000 / 101]).map (fun d => (d.type, d.severity)) =
      [(ArrhythmiaType.tachycardia, "mild")] ∧
    (assessHeartRate { heart_rate := some 101 } none).map (fun f => (f.name, f.severity)) =
      [("Tachycardia", Severity.mild)] :=
  (c9_tachycardia_boundaries 500 [30000 / 101] { heart_rate := some 101 } 101
    (by norm_num) (by norm_num [qmean]) rfl).2.1 rfl

/-! Lemmas about the detection passes, used for the AFib claim. -/

/-- The AFib pass never emits a detection: the placeholder P-wave score
0.5 never clears the 0.3 threshold. -/
lemma detectAfib_eq_nil (rr signal : List ℚ) (peaks : List ℕ) :
    detectAfib rr signal peaks = [] := by
  simp only [detectAfib, assessPWaveRegularity]
  split_ifs <;> first | rfl | (exfalso; norm_num at *)

/-- Every rate-pass detection is bradycardia or tachycardia. -/
lemma mem_detectRateAbnormalities_type (rate : ℚ) (rr : List ℚ)
    (d : ArrhythmiaDetection) (h : d ∈ detectRateAbnormalities rate rr) :
    d.type = .bradycardia ∨ d.type = .tachycardia := by
  simp only [detectRateAbnormalities] at h
  split_ifs at h <;> simp_all

/-- Every flutter-pass detection is atrial flutter. -/
lemma mem_detectAflutter_type (freqs psd : List ℚ) (d : ArrhythmiaDetection)
    (h : d ∈ detectAflutter freqs psd) : d.type = .aflutter := by
  simp only [detectAflutter] at h
  split_ifs at h <;> simp_all

/-- Every ventricular-pass detection is VT or VFib. -/
lemma mem_detectVentricular_type (rate : ℚ) (signal : List ℚ) (peaks : List ℕ)
    (rr : List ℚ) (d : ArrhythmiaDetection)
    (h : d ∈ detectVentricularArrhythmias rate signal peaks rr) :
    d.type = .vt ∨ d.type = .vfib := by
  simp only [detectVentricularArrhythmias] at h
  split_ifs at h <;> simp_all <;> rcases h with h | h <;> simp_all

/-- Every ectopic-pass detection is a PVC or a PAC. -/
lemma mem_detectEctopic_type (rate : ℚ) (signal : List ℚ) (peaks : List ℕ)
    (rr : List ℚ) (d : ArrhythmiaDetection)
    (h : d ∈ detectEctopicBeats rate signal peaks rr) :
    d.type = .pvc ∨ d.type = .pac := by
  simp only [detectEctopicBeats] at h
  split_ifs at h
  · simp at h
  · simp only [List.mem_flatMap] at h
    obtain ⟨i, _, hd⟩ := h
    split_ifs at hd <;> simp_all

/-- Every heart-block-pass detection is a second-degree block. -/
lemma mem_detectHeartBlocks_type (signal : List ℚ) (peaks : List ℕ)
    (rr : List ℚ) (d : ArrhythmiaDetection)
    (h : d ∈ detectHeartBlocks signal peaks rr) :
    d.type = .secondDegreeBlock := by
  simp only [detectHeartBlocks] at h
  split_ifs at h <;> simp_all

/-- The first-occurrence fold only produces elements of the accumulator
or of the traversed list. -/
lemma foldl_insert_mem (l : List ArrhythmiaType) :
    ∀ (acc : List ArrhythmiaType)
      (x : ArrhythmiaType),
      x ∈ l.foldl (fun acc t => if t ∈ acc then acc else acc ++ [t]) acc →
      x ∈ acc ∨ x ∈ l := by
  induction l with
  | nil => intro acc x hx; exact Or.inl hx
  | cons t ts ih =>
    intro acc x hx
    simp only [List.foldl_cons] at hx
    rcases ih _ x hx with h | h
    · by_cases ht : t ∈ acc
      · rw [if_pos ht] at h
        exact Or.inl h
      · rw [if_neg ht] at h
        rcases List.mem_append.mp h with h1 | h1
        · exact Or.inl h1
        · have hx : x = t := List.mem_singleton.mp h1
          exact Or.inr (by rw [hx]; exact List.mem_cons_self t ts)
    · exact Or.inr (List.mem_cons_of_mem _ h)

/-- Types in first-occurrence order are types of some detection. -/
lemma firstOccurrenceTypes_sub (dets : List ArrhythmiaDetection)
    (x : ArrhythmiaType) (hx : x ∈ firstOccurrenceTypes dets) :
    x ∈ dets.map (fun d => d.type) := by
  unfold firstOccurrenceTypes at hx
  rcases foldl_insert_mem _ _ _ hx with h | h
  · simp at h
  · exact h

/-- The pick-first-maximum fold stays within its candidates. -/
lemma foldl_pick_mem (f : ArrhythmiaType → ℕ) :
    ∀ (ts : List ArrhythmiaType) (t : ArrhythmiaType),
      ts.foldl (fun best u => if f best < f u then u else best) t ∈ t :: ts := by
  intro ts
  induction ts with
  | nil => intro t; exact List.mem_singleton.mpr rfl
  | cons u us ih =>
    intro t
    simp only [List.foldl_cons]
    rcases List.mem_cons.mp (ih (if f t < f u then u else t)) with h1 | h1
    · rw [h1]
      by_cases hc : f t < f u
      · rw [if_pos hc]
        exact List.mem_cons_of_mem _ (List.mem_cons_self _ _)
      · rw [if_neg hc]
        exact List.mem_cons_self _ _
    · exact List.mem_cons_of_mem _ (List.mem_cons_of_mem _ h1)

/-- The most common detected type is Normal (for no detections) or the
type of some detection. -/
lemma mostCommonType_cases (dets : List ArrhythmiaDetection) :
    mostCommonType dets = .normal ∨
      mostCommonType dets ∈ dets.map (fun d => d.type) := by
  unfold mostCommonType
  cases hf : firstOccurrenceTypes dets with
  | nil => exact Or.inl rfl
  | cons t ts =>
    right
    have hm := foldl_pick_mem (typeCount dets) ts t
    have hsub : ∀ x ∈ t :: ts, x ∈ dets.map (fun d => d.type) := by
      intro x hx
      exact firstOccurrenceTypes_sub dets x (hf ▸ hx)
    exact hsub _ hm

/-- If no detection has type AFib, the primary rhythm is not AFib. -/
lemma determinePrimaryRhythm_ne_afib (dets : List ArrhythmiaDetection)
    (rr : List ℚ) (hno : ∀ d ∈ dets, d.type ≠ .afib) :
    determinePrimaryRhythm dets rr ≠ .afib := by
  unfold determinePrimaryRhythm
  have hnc : ¬ hasConfidentDetection dets .afib := by
    rintro ⟨d, hd, ht, _⟩
    exact hno d hd ht
  split_ifs with h1 h2 h3 h4 h5
  · simp
  · simp
  · simp
  · simp
  · simp
  · intro hmc
    rcases mostCommonType_cases dets with h | h
    · rw [hmc] at h
      exact absurd h (by simp)
    · rw [hmc] at h
      obtain ⟨d, hd, ht⟩ := List.mem_map.mp h
      exact hno d hd ht

/-- Mapping the primary rhythm out of the burden-then-report stage
never produces AFib provided no constructed report has AFib as primary
rhythm; errors never do. -/
lemma burden_map_primary_ne (B : Except String (List (ArrhythmiaType × ℚ)))
    (mk : List (ArrhythmiaType × ℚ) → ArrhythmiaReport)
    (hmk : ∀ b, (mk b).primary_rhythm ≠ ArrhythmiaType.afib) :
    Except.map (fun rep => rep.primary_rhythm) (Except.map mk B) ≠
      Except.ok ArrhythmiaType.afib := by
  cases B with
  | error e => simp [Except.map]
  | ok b =>
    simp only [Except.map]
    intro hc
    exact hmk b (by injection hc)

/-- C10: the AFib detection pass returns the empty list on every input
(the constant 0.5 P-wave score never goes below 0.3), and consequently
no `detect` call ever reports AFib as the primary rhythm, whatever
models are taken for the external SciPy routines. -/
theorem c10_afib_unreachable :
    (∀ (rr signal : List ℚ) (peaks : List ℕ), detectAfib rr signal peaks = []) ∧
    (∀ (cfg : ArrhythmiaDetectorConfig) (welchFn : List ℚ → List ℚ × List ℚ)
      (rdetect : List ℚ → List ℕ) (signals : List (String × List ℚ))
      (r_peaks : Option (List (String × List ℕ))),
      (ArrhythmiaDetector.detect cfg welchFn rdetect signals r_peaks).map
        (fun rep => rep.primary_rhythm) ≠ Except.ok ArrhythmiaType.afib) := by
  constructor
  · exact detectAfib_eq_nil
  · intro cfg welchFn rdetect signals r_peaks
    unfold ArrhythmiaDetector.detect
    cases hsel : selectPrimaryLead signals with
    | none => simp [Except.map]
    | some ls =>
      obtain ⟨lead_name, signal⟩ := ls
      cases hpk : detectPeaksOf rdetect lead_name signal r_peaks with
      | error e => simp [hpk, Except.bind, Except.map]
      | ok peaks =>
        simp only [hpk, Except.bind]
        refine burden_map_primary_ne _ _ ?_
        intro b
        simp only [ne_eq]
        refine determinePrimaryRhythm_ne_afib _ _ ?_
        intro d hd
        simp only [List.mem_append] at hd
        rcases hd with ((((h | h) | h) | h) | h) | h
        · rcases mem_detectRateAbnormalities_type _ _ _ h with ht | ht <;> simp [ht]
        · rw [detectAfib_eq_nil] at h
          simp at h
        · have := mem_detectAflutter_type _ _ _ h
          simp [this]
        · rcases mem_detectVentricular_type _ _ _ _ _ h with ht | ht <;> simp [ht]
        · rcases mem_detectEctopic_type _ _ _ _ _ h with ht | ht <;> simp [ht]
        · have := mem_detectHeartBlocks_type _ _ _ _ h
          simp [this]

/-- `np.diff` shortens a peak list by one. -/
lemma diffQ_length (p : List ℕ) : (diffQ p).length = p.length - 1 := by
  unfold diffQ
  rw [List.length_zipWith, List.length_tail]
  omega

/-- C7 counterexample: a two-peak input whose signal has normalized
entropy above 0.8 yields NO VFib detection - the pass returns before the
VFib check whenever fewer than 3 RR intervals exist, and fewer than 3
peaks always means fewer than 3 RR intervals. -/
theorem c7_counterexample :
    (([0, 1] : List ℕ).length < 3) ∧
    0.8 < calculateSignalEntropy [0, 50] ∧
    detectVentricularArrhythmias 250 [0, 50] [0, 1] (diffQ [0, 1]) = [] := by
  have hhist : histNonzeroDensities [0, 50] 50 = [1/2, 1/2] := by
    simp only [histNonzeroDensities, qmin, qmax, List.range_succ]
    norm_num
  refine ⟨by norm_num, ?_, ?_⟩
  · unfold calculateSignalEntropy
    rw [hhist]
    simp only [List.map_cons, List.map_nil, List.sum_cons, List.sum_nil,
      List.length_cons, List.length_nil]
    have hlb : Real.logb 2 (((1 : ℚ) / 2 : ℚ) : ℝ) = -1 := by
      rw [show (((1 : ℚ) / 2 : ℚ) : ℝ) = (2 : ℝ)⁻¹ by norm_num, Real.logb_inv,
        Real.logb_self_eq_one (by norm_num)]
    rw [hlb]
    have h2 : Real.logb 2 ((0 + 1 + 1 : ℕ) : ℝ) = 1 := by
      norm_num [Real.logb_self_eq_one]
    rw [h2, if_pos (by norm_num)]
    push_cast
    norm_num
  · have hd : diffQ [0, 1] = [1] := by
      simp [diffQ]
    rw [hd]
    simp only [detectVentricularArrhythmias]
    norm_num

/-- C7 amended: within the ventricular pass as invoked by `detect` (RR
intervals are the first differences of the peaks), a VFib detection
(confidence 0.90, severity severe) is emitted if and only if there are
at least 3 RR intervals, the RR coefficient of variation exceeds 0.8,
and the 50-bin normalized entropy exceeds 0.8.  The peak-count-below-3
disjunct of the source condition is unreachable, because fewer than 3
peaks forces fewer than 3 RR intervals and an early empty return. -/
theorem c7_amended (sample_rate : ℚ) (signal : List ℚ) (peaks : List ℕ) :
    (∃ d ∈ detectVentricularArrhythmias sample_rate signal peaks (diffQ peaks),
        d.type = ArrhythmiaType.vfib ∧ d.confidence = 0.90 ∧ d.severity = "severe") ↔
      (3 ≤ (diffQ peaks).length ∧ 0.8 < variationR (diffQ peaks) ∧
        0.8 < calculateSignalEntropy signal) := by
  constructor
  · rintro ⟨d, hd, ht, hc, hs⟩
    simp only [detectVentricularArrhythmias] at hd
    by_cases hlen : (diffQ peaks).length < 3
    · rw [if_pos hlen] at hd
      simp at hd
    · rw [if_neg hlen] at hd
      rcases List.mem_append.mp hd with h | h
      · split_ifs at h <;>
          first
            | (simp only [List.mem_singleton] at h; subst h; simp at ht)
            | simp at h
      · split_ifs at h with hcond hent
        · simp only [List.mem_singleton] at h
          refine ⟨by omega, ?_, hent⟩
          rcases hcond with hp | hcv
          · exfalso
            have hdl := diffQ_length peaks
            omega
          · exact hcv
        · simp at h
        · simp at h
  · rintro ⟨hlen, hcv, hent⟩
    simp only [detectVentricularArrhythmias]
    rw [if_neg (by omega)]
    refine ⟨{ type := .vfib, confidence := 0.90, severity := "severe",
              description := "Chaotic ventricular activity, no organized rhythm",
              clinical_significance := "FATAL - requires immediate defibrillation" },
            List.mem_append_right _ ?_, rfl, rfl, rfl⟩
    rw [if_pos (Or.inr hcv), if_pos hent]
    exact List.mem_singleton.mpr rfl

/-! Evaluation lemmas on all-zero signals, used for the dispersion
claim: a constant-zero beat segment passes smoothing unchanged, its
T-wave-end search falls through to the 400 ms default, and so a
zero lead with enough peaks produces genuine measurements. -/

/-- `getD 0` of any position of an all-zero list is 0. -/
lemma get?_replicate_zero_getD (n i : ℕ) :
    ((List.replicate n (0 : ℚ)).get? i).getD 0 = 0 := by
  cases h : (List.replicate n (0 : ℚ)).get? i with
  | none => rfl
  | some x =>
    have hx := List.get?_mem h
    rw [List.eq_of_mem_replicate hx]
    rfl

/-- The modelled Savitzky-Golay filter maps an all-zero signal to
itself (linearity at zero). -/
lemma savgolFilter_replicate_zero (n w : ℕ) :
    savgolFilter (List.replicate n (0 : ℚ)) w = List.replicate n 0 := by
  simp only [savgolFilter, List.length_replicate]
  refine List.eq_replicate_iff.mpr ⟨by simp, ?_⟩
  intro b hb
  obtain ⟨i, _, hfi⟩ := List.mem_map.mp hb
  rw [← hfi]
  split_ifs
  · exact get?_replicate_zero_getD n i
  · apply List.sum_eq_zero
    intro x hx
    obtain ⟨k, _, hk⟩ := List.mem_map.mp hx
    rw [← hk, get?_replicate_zero_getD, mul_zero]

/-- The first-maximum index of an all-zero list is 0. -/
lemma argmaxQ_replicate_zero (n : ℕ) :
    argmaxQ (List.replicate n (0 : ℚ)) = 0 := by
  have haux : ∀ (k : ℕ) (i : ℕ),
      (List.replicate k (0 : ℚ)).foldl
        (fun (acc : ℕ × ℕ × Option ℚ) x =>
          match acc with
          | (idx, _b, none) => (idx + 1, idx, some x)
          | (idx, best, some bv) =>
              if bv < x then (idx + 1, idx, some x) else (idx + 1, best, some bv))
        (i, 0, some 0) = (i + k, 0, some 0) := by
    intro k
    induction k with
    | zero => intro i; rfl
    | succ m ih =>
      intro i
      rw [List.replicate_succ, List.foldl_cons]
      have hlt : ¬ (0 : ℚ) < 0 := lt_irrefl 0
      simp only [hlt, if_false]
      rw [ih (i + 1)]
      exact congrArg (fun t => (t, (0 : ℕ), some (0 : ℚ))) (by omega)
  unfold argmaxQ
  cases n with
  | zero => rfl
  | succ m =>
    rw [List.replicate_succ, List.foldl_cons]
    rw [haux m 1]

/-- The median of an all-zero list is 0. -/
lemma qmedian_replicate_zero (n : ℕ) :
    qmedian (List.replicate n (0 : ℚ)) = 0 := by
  have hperm : (List.replicate n (0 : ℚ)).mergeSort (fun a b => decide (a ≤ b)) =
      List.replicate n 0 := by
    refine List.eq_replicate_iff.mpr ⟨?_, ?_⟩
    · exact (List.mergeSort_perm (List.replicate n (0 : ℚ))
        (fun a b => decide (a ≤ b))).length_eq.trans (by simp)
    · intro b hb
      have hmem := (List.mergeSort_perm (List.replicate n (0 : ℚ))
        (fun a b => decide (a ≤ b))).mem_iff.mp hb
      exact List.eq_of_mem_replicate hmem
  simp only [qmedian, hperm, List.length_replicate]
  split_ifs with h1 h2
  · rfl
  · rw [get?_replicate_zero_getD]
  · rw [get?_replicate_zero_getD, get?_replicate_zero_getD]
    norm_num

/-- On a 100-sample all-zero beat segment at 250 Hz, the T-wave-end
search finds no sample within the (zero) threshold and defaults to
`min(400 ms, segment end) = 99`. -/
lemma findTWaveEnd_zero :
    findTWaveEnd 250 (List.replicate 100 (0 : ℚ)) = some 99 := by
  have hq1 : qfloor (75 / 2) = 37 := by
    norm_num [qfloor]
    decide
  have hq2 : qfloor (125 : ℚ) = 125 := by
    norm_num [qfloor]
    decide
  have hq3 : qfloor (100 : ℚ) = 100 := by
    norm_num [qfloor]
    decide
  have hff : ∀ l : List ℕ, l.find? (fun _ => false) = none := by
    intro l
    apply List.find?_eq_none.mpr
    intro x _
    simp
  norm_num [findTWaveEnd, List.length_replicate, savgolFilter_replicate_zero,
    get?_replicate_zero_getD, List.drop_replicate, slice, List.take_replicate,
    qmedian_replicate_zero, argmaxQ_replicate_zero, List.map_replicate,
    hq1, hq2, hq3, hff]

set_option maxRecDepth 8192 in
/-- On the all-zero lead at 250 Hz with peaks 0/100/200, each of the two
beats yields a measurement: the measurement list has exactly the two
entries, both from lead II. -/
lemma measureQt_zero_lead :
    (measureQtIntervals 250 (List.replicate 300 (0 : ℚ)) [0, 100, 200] "II").map
      (fun m => m.lead_name) = ["II", "II"] := by
  unfold measureQtIntervals
  have hz : ([0, 100, 200] : List ℕ).zip [0, 100, 200].tail = [(0, 100), (100, 200)] := rfl
  rw [hz]
  have hq8 : qfloor (0.8 * 250) = 200 := by
    norm_num [qfloor]
    decide
  have hq2 : qfloor (0.2 * 250) = 50 := by
    norm_num [qfloor]
    decide
  have hs1 : slice (List.replicate 300 (0 : ℚ)) 0 (min 100 (0 + 200)) =
      List.replicate 100 0 := by
    norm_num [slice, List.drop_replicate, List.take_replicate]
  have hs2 : slice (List.replicate 300 (0 : ℚ)) 100 (min 200 (100 + 200)) =
      List.replicate 100 0 := by
    norm_num [slice, List.drop_replicate, List.take_replicate]
  simp only [List.filterMap_cons, List.filterMap_nil, hq8, hq2, hs1, hs2,
    List.length_replicate, findTWaveEnd_zero]
  norm_num

set_option maxRecDepth 8192 in
/-- C3 counterexample: a single lead (II) carrying a constant-zero
signal with three supplied peaks yields two QT measurements from that
one lead, and `analyze` returns a NON-null dispersion, contradicting
the claim that one-lead measurement sets give null dispersion. -/
theorem c3_counterexample :
    ((QTAnalyzer.analyze (QTAnalyzer.init 250)
        [("II", List.replicate 300 (0 : ℚ))] [("II", [0, 100, 200])] none).measurements.map
      (fun m => m.lead_name) = ["II", "II"]) ∧
    ((QTAnalyzer.analyze (QTAnalyzer.init 250)
        [("II", List.replicate 300 (0 : ℚ))] [("II", [0, 100, 200])] none).dispersion).isSome =
      true := by
  have hm : ([("II", List.replicate 300 (0 : ℚ))].flatMap (fun ls =>
      match ([("II", [0, 100, 200])] : List (String × List ℕ)).lookup ls.1 with
      | none => []
      | some p => if p.length < 2 then []
          else measureQtIntervals (QTAnalyzer.init 250).sample_rate ls.2 p ls.1)) =
      measureQtIntervals 250 (List.replicate 300 (0 : ℚ)) [0, 100, 200] "II" := by
    simp [QTAnalyzer.init, List.lookup]
  have hlen : (measureQtIntervals 250 (List.replicate 300 (0 : ℚ)) [0, 100, 200] "II").length = 2 := by
    have := congrArg List.length measureQt_zero_lead
    simpa using this
  constructor
  · unfold QTAnalyzer.analyze
    rw [hm]
    rw [if_neg (by rw [hlen]; norm_num)]
    exact measureQt_zero_lead
  · unfold QTAnalyzer.analyze
    rw [hm]
    rw [if_neg (by rw [hlen]; norm_num)]
    simp only [hlen]
    rw [if_pos (by norm_num)]
    rfl

/-- C3 amended: `analyze` returns a non-null dispersion exactly when it
produced at least 2 measurements, regardless of how many distinct leads
they come from; a single lead contributing 2 or more beats yields a
non-null (zero-valued) dispersion. -/
theorem c3_amended (cfg : QTAnalyzerConfig) (signals : List (String × List ℚ))
    (r_peaks : List (String × List ℕ)) (gender : Option String) :
    ((QTAnalyzer.analyze cfg signals r_peaks gender).dispersion).isSome = true ↔
      2 ≤ ((QTAnalyzer.analyze cfg signals r_peaks gender).measurements).length := by
  unfold QTAnalyzer.analyze
  set ms := signals.flatMap (fun ls =>
    match r_peaks.lookup ls.1 with
    | none => []
    | some p => if p.length < 2 then []
        else measureQtIntervals cfg.sample_rate ls.2 p ls.1) with hms
  by_cases h0 : ms.length = 0
  · rw [if_pos h0]
    simp [h0]
  · rw [if_neg h0]
    by_cases h2 : 2 ≤ ms.length
    · simp [h2]
    · simp [h2]

/-- A non-empty signal dict always yields a selected lead. -/
lemma selectPrimaryLead_cons (a : String × List ℚ) (tl : List (String × List ℚ)) :
    ∃ ls, selectPrimaryLead (a :: tl) = some ls := by
  unfold selectPrimaryLead
  cases h1 : (a :: tl).lookup "II" with
  | some s => exact ⟨_, rfl⟩
  | none =>
    cases h2 : (a :: tl).lookup "I" with
    | some s => exact ⟨_, rfl⟩
    | none => exact ⟨a, rfl⟩

/-- With a nonzero total sample count the burden loop cannot fail. -/
lemma calculateBurden_ok (dets : List ArrhythmiaDetection) (total : ℕ)
    (h : total ≠ 0) : ∃ l, calculateBurden dets total = .ok l := by
  unfold calculateBurden
  induction ArrhythmiaType.all with
  | nil => exact ⟨[], rfl⟩
  | cons t rest ih =>
    obtain ⟨l, hl⟩ := ih
    unfold burdenEntries
    by_cases hz : ((dets.filter (fun d => decide (d.type = t))).length = 0)
    · rw [if_pos hz]
      exact ⟨l, hl⟩
    · rw [if_neg hz, if_neg h, hl]
      exact ⟨_, rfl⟩

/-- C6 counterexample: on the empty lead map `_select_primary_lead`
reaches `next(iter({}.items()))`, which raises `StopIteration`, so
`detect` raises instead of returning a degraded report. -/
theorem c6_counterexample :
    selectPrimaryLead [] = none ∧
    ArrhythmiaDetector.detect (ArrhythmiaDetector.init 500) welchStub rdetectStub
      [] none = .error "StopIteration" :=
  ⟨rfl, rfl⟩

/-- C6 amended: insufficient data degrades only on the surviving paths.
When the selected lead's peaks resolve without error (supplied, or
computed from a long-enough signal) and number fewer than 2, and the
signal is non-empty, `detect` returns a report with heart-rate
statistics (0, 0), RR irregularity 0, and no detections beyond the
PSD-based flutter pass - this holds for every model of the external
SciPy routines.  But `detect` is not exception-free: the empty map
raises `StopIteration` (see the counterexample), and computing peaks of
a signal with 15 or fewer samples raises `ValueError` inside
`filtfilt`; an empty selected signal with detections would likewise
raise `ZeroDivisionError` in the burden computation. -/
theorem c6_amended (cfg : ArrhythmiaDetectorConfig)
    (welchFn : List ℚ → List ℚ × List ℚ) (rdetect : List ℚ → List ℕ) :
    (∀ (nm : String) (sg : List ℚ) (tl : List (String × List ℚ))
      (r_peaks : Option (List (String × List ℕ))) (lead : String)
      (signal : List ℚ) (peaks : List ℕ),
      selectPrimaryLead ((nm, sg) :: tl) = some (lead, signal) →
      detectPeaksOf rdetect lead signal r_peaks = .ok peaks →
      peaks.length < 2 → signal.length ≠ 0 →
      ∃ rep, ArrhythmiaDetector.detect cfg welchFn rdetect ((nm, sg) :: tl) r_peaks =
          .ok rep ∧
        rep.heart_rate_mean = 0 ∧ rep.heart_rate_std = 0 ∧ rep.rr_irregularity = 0 ∧
        rep.detections = detectAflutter (welchFn signal).1 (welchFn signal).2) ∧
    (∀ (nm : String) (sg : List ℚ) (tl : List (String × List ℚ))
      (lead : String) (signal : List ℚ),
      selectPrimaryLead ((nm, sg) :: tl) = some (lead, signal) →
      signal.length ≤ 15 →
      ArrhythmiaDetector.detect cfg welchFn rdetect ((nm, sg) :: tl) none =
        .error "ValueError: The length of the input vector x must be greater than padlen, which is 15.") := by
  constructor
  · intro nm sg tl r_peaks lead signal peaks hsel hok hp hsig
    unfold ArrhythmiaDetector.detect
    have hrr : (if 1 < peaks.length then diffQ peaks else []) = [] :=
      if_neg (by omega)
    simp only [hsel, hok, Except.bind, hrr]
    have hdets : detectRateAbnormalities cfg.sample_rate [] ++
        detectAfib [] signal peaks ++
        detectAflutter (welchFn signal).1 (welchFn signal).2 ++
        detectVentricularArrhythmias cfg.sample_rate signal peaks [] ++
        detectEctopicBeats cfg.sample_rate signal peaks [] ++
        detectHeartBlocks signal peaks [] =
        detectAflutter (welchFn signal).1 (welchFn signal).2 := by
      simp [detectRateAbnormalities, detectAfib, detectVentricularArrhythmias,
        detectEctopicBeats, detectHeartBlocks]
    simp only [hdets]
    obtain ⟨l, hl⟩ := calculateBurden_ok
      (detectAflutter (welchFn signal).1 (welchFn signal).2) signal.length hsig
    rw [hl]
    simp only [Except.map]
    exact ⟨_, rfl, rfl, rfl, rfl, rfl⟩
  · intro nm sg tl lead signal hsel hshort
    have hpk : detectPeaksOf rdetect lead signal none =
        .error "ValueError: The length of the input vector x must be greater than padlen, which is 15." := by
      unfold detectPeaksOf detectRPeaks
      rw [if_pos hshort]
    unfold ArrhythmiaDetector.detect
    simp only [hsel, hpk, Except.bind]

/-- Witness for C6: a one-lead map (3 samples, 1 supplied peak) returns
a report with heart-rate mean 0, RR irregularity 0 and no detections
(the stub PSD has no 4-6 Hz content). -/
theorem c6_witness :
    (ArrhythmiaDetector.detect (ArrhythmiaDetector.init 500) welchStub rdetectStub
        [("II", [0, 0, 0])] (some [("II", [5])])).map
      (fun rep => (rep.heart_rate_mean, rep.rr_irregularity, rep.detections.length)) =
      Except.ok (0, 0, 0) := by
  obtain ⟨rep, hrep, h1, h2, h3, h4⟩ :=
    (c6_amended (ArrhythmiaDetector.init 500) welchStub rdetectStub).1
      "II" [0, 0, 0] [] (some [("II", [5])]) "II" [0, 0, 0] [5] rfl rfl
      (by decide) (by decide)
  rw [hrep]
  simp only [Except.map, h1, h3, h4, welchStub, detectAflutter]
  rfl

/-- C2: `_assess_morphology` constructs its finding with
`FindingCategory.MORPHOLOGY`, an attribute the `FindingCategory` enum
does not declare, so the first lead V1-V3 whose max-minus-median
amplitude is below 0.1 mV raises `AttributeError` instead of appending
a finding - and `interpret` therefore raises instead of returning a
report. -/
theorem c2_morphology_attribute_error :
    (qmax (List.replicate 4 (0 : ℚ)) - qmedian (List.replicate 4 0) < 0.1) ∧
    assessMorphology [("V1", List.replicate 4 (0 : ℚ))] =
      .error "AttributeError: FindingCategory has no attribute MORPHOLOGY" ∧
    ClinicalInterpreter.interpret [("V1", List.replicate 4 (0 : ℚ))] 250
      {} { snr := 20, baseline_drift := 0, clipping_fraction := 0,
           coverage := 1, confidence := 1 }
      none none none none =
      .error "AttributeError: FindingCategory has no attribute MORPHOLOGY" := by
  have hqmax : qmax (List.replicate 4 (0 : ℚ)) = 0 := by
    norm_num [qmax, List.replicate]
  have hamp : qmax (List.replicate 4 (0 : ℚ)) - qmedian (List.replicate 4 0) < 0.1 := by
    rw [hqmax, qmedian_replicate_zero]
    norm_num
  have hmorph : assessMorphology [("V1", List.replicate 4 (0 : ℚ))] =
      .error "AttributeError: FindingCategory has no attribute MORPHOLOGY" := by
    unfold assessMorphology
    rw [if_pos (Or.inl rfl), if_pos hamp]
  refine ⟨hamp, hmorph, ?_⟩
  unfold ClinicalInterpreter.interpret
  rw [hmorph]

end ECG2Signal
